import Mathlib

/-!
Verification development for the DestructionTerrain voxel terrain system.

The embedding below is a shallow model of the C++ sources
ProceduralTerrain.cpp and ProceduralTerrainWorld.cpp.  Scalars (C++ float)
are modelled as exact rationals; engine math helpers (FMath, FVector) are
modelled by definitions mirroring their Unreal Engine semantics.  Square
roots are modelled by ratSqrt, which agrees with the real square root on
every perfect-square rational (all concrete evaluations in this file stay
in that territory) and is characterised by the lemma ratSqrt_sq.
-/

namespace DTerr

/-- UE KINDA_SMALL_NUMBER constant (1.e-4f). -/
def kindaSmallNumber : ℚ := 1/10000

/-- UE SMALL_NUMBER constant (1.e-8f). -/
def smallNumber : ℚ := 1/100000000

/-- FMath Abs. -/
def fabs (x : ℚ) : ℚ := if x < 0 then -x else x

/-- FMath Max on scalars: returns A if B is not greater. -/
def fmax (a b : ℚ) : ℚ := if b ≤ a then a else b

/-- FMath IsNearlyZero with its default tolerance SMALL_NUMBER. -/
def isNearlyZero (x : ℚ) : Prop := fabs x ≤ smallNumber

instance (x : ℚ) : Decidable (isNearlyZero x) := by unfold isNearlyZero; infer_instance

/-- Exact square root on the rationals: returns the square root of a
perfect-square rational, and 0 on rationals that are not perfect squares
(no concrete evaluation in this development leaves the perfect-square
fragment, where this agrees with the real square root). -/
def ratSqrt (q : ℚ) : ℚ :=
  let n := q.num.toNat
  let d := q.den
  if Nat.sqrt n * Nat.sqrt n = n ∧ Nat.sqrt d * Nat.sqrt d = d then
    (Nat.sqrt n : ℚ) / (Nat.sqrt d : ℚ)
  else 0

theorem ratSqrt_sq (r : ℚ) (hr : 0 ≤ r) : ratSqrt (r * r) = r := by
  unfold ratSqrt
  have hr' : (0:ℤ) ≤ r.num := Rat.num_nonneg.mpr hr
  obtain ⟨m, hm⟩ : ∃ m : ℕ, r.num = (m : ℤ) := ⟨r.num.toNat, (Int.toNat_of_nonneg hr').symm⟩
  have hnum : (r * r).num = ((m * m : ℕ) : ℤ) := by
    rw [Rat.mul_self_num, hm]; push_cast; ring
  have hden : (r * r).den = r.den * r.den := Rat.mul_self_den r
  simp only [hnum, hden, Int.toNat_natCast, Nat.sqrt_eq]
  rw [if_pos (by simp)]
  have h2 : (r.num : ℚ) / (r.den : ℚ) = r := Rat.num_div_den r
  rw [hm] at h2
  push_cast at h2 ⊢
  exact h2

theorem ratSqrt_zero : ratSqrt 0 = 0 := by
  have h : (0 : ℚ) = 0 * 0 := by norm_num
  rw [h, ratSqrt_sq] <;> norm_num

/-- FVector: a 3-component vector (components modelled as exact rationals). -/
structure Vec3 where
  x : ℚ
  y : ℚ
  z : ℚ
deriving DecidableEq

namespace Vec3

def add (a b : Vec3) : Vec3 := ⟨a.x + b.x, a.y + b.y, a.z + b.z⟩

def sub (a b : Vec3) : Vec3 := ⟨a.x - b.x, a.y - b.y, a.z - b.z⟩

/-- Scalar multiplication. -/
def smul (c : ℚ) (v : Vec3) : Vec3 := ⟨c * v.x, c * v.y, c * v.z⟩

/-- Componentwise division. -/
def divComp (a b : Vec3) : Vec3 := ⟨a.x / b.x, a.y / b.y, a.z / b.z⟩

/-- Division of a vector by a scalar. -/
def divScalar (v : Vec3) (c : ℚ) : Vec3 := ⟨v.x / c, v.y / c, v.z / c⟩

instance : Add Vec3 := ⟨add⟩

instance : Sub Vec3 := ⟨sub⟩

instance : SMul ℚ Vec3 := ⟨smul⟩

def zero : Vec3 := ⟨0, 0, 0⟩

/-- FVector UpVector. -/
def upVector : Vec3 := ⟨0, 0, 1⟩

/-- FVector CrossProduct. -/
def cross (a b : Vec3) : Vec3 :=
  ⟨a.y * b.z - a.z * b.y, a.z * b.x - a.x * b.z, a.x * b.y - a.y * b.x⟩

/-- FVector SizeSquared. -/
def sizeSquared (v : Vec3) : ℚ := v.x * v.x + v.y * v.y + v.z * v.z

/-- FVector DistSquared. -/
def distSquared (a b : Vec3) : ℚ := sizeSquared (sub a b)

/-- FVector Dist (Euclidean distance). -/
def dist (a b : Vec3) : ℚ := ratSqrt (distSquared a b)

/-- FVector GetSafeNormal with its default tolerance: the zero vector when
the squared size is below SMALL_NUMBER, the normalized vector otherwise. -/
def getSafeNormal (v : Vec3) : Vec3 :=
  if sizeSquared v < smallNumber then zero
  else divScalar v (ratSqrt (sizeSquared v))

/-- FVector Normalize with its default tolerance: some normalized vector on
success (squared size above SMALL_NUMBER), none on failure (the C++ method
returns false and leaves the vector unchanged). -/
def normalizeOpt (v : Vec3) : Option Vec3 :=
  if smallNumber < sizeSquared v then some (divScalar v (ratSqrt (sizeSquared v)))
  else none

/-- FVector GetAbsMax: the largest absolute component. -/
def getAbsMax (v : Vec3) : ℚ := fmax (fabs v.x) (fmax (fabs v.y) (fabs v.z))

end Vec3

/-- FMath Clamp on integers. -/
def clamp (x lo hi : ℤ) : ℤ := if x < lo then lo else if hi < x then hi else x

/-- FMath RoundToInt: round to nearest, halves upward. -/
def roundToInt (q : ℚ) : ℤ := ⌊q + 1/2⌋

/-- FMath CeilToInt. -/
def ceilToInt (q : ℚ) : ℤ := ⌈q⌉

/-- FMath FloorToInt. -/
def floorToInt (q : ℚ) : ℤ := ⌊q⌋

/-- The linear voxel index x + y * Size + z * Size * Size used by every
GetIndex lambda in the sources. -/
def getIndex (size x y z : ℤ) : ℤ := x + y * size + z * size * size

/-- The inclusive integer range lo..hi as a list (the iteration space of a
C++ loop for (i = lo; i <= hi; ++i)). -/
def intRange (lo hi : ℤ) : List ℤ := (List.range (hi + 1 - lo).toNat).map (fun i => lo + (i : ℤ))

/-- All grid cells of a size^3 cube, listed in the z-major, then y, then x
iteration order of the sources, so that the list position of cell (x,y,z)
is exactly getIndex size x y z. -/
def gridCells (s : ℕ) : List (ℕ × ℕ × ℕ) :=
  (List.range s).flatMap fun z =>
    (List.range s).flatMap fun y =>
      (List.range s).map fun x => (x, y, z)

/-- Builds the flat array written by a triple loop for z, for y, for x
that stores f x y z at linear index x + y * s + z * s * s. -/
def gridList (s : ℕ) (f : ℕ → ℕ → ℕ → α) : List α :=
  (List.range s).flatMap fun z =>
    (List.range s).flatMap fun y =>
      (List.range s).map fun x => f x y z

theorem length_flatMap_const (l : List β) (g : β → List α) (m : ℕ)
    (h : ∀ b ∈ l, (g b).length = m) : (l.flatMap g).length = l.length * m := by
  induction l with
  | nil => simp
  | cons a t ih =>
    rw [List.flatMap_cons, List.length_append, h a (List.mem_cons_self a t),
      ih (fun b hb => h b (List.mem_cons_of_mem a hb)), List.length_cons]
    ring

theorem getD_flatMap_range (s m : ℕ) (g : ℕ → List α) (d : α)
    (h : ∀ k, k < s → (g k).length = m) (i j : ℕ) (hi : i < s) (hj : j < m) :
    ((List.range s).flatMap g).getD (i * m + j) d = (g i).getD j d := by
  induction s with
  | zero => omega
  | succ n ih =>
    rw [List.range_succ, List.flatMap_append]
    have hlen : ((List.range n).flatMap g).length = n * m :=
      (length_flatMap_const (List.range n) g m
        (fun b hb => h b (lt_of_lt_of_le (List.mem_range.mp hb) (Nat.le_succ n)))).trans
        (by rw [List.length_range])
    by_cases hin : i < n
    · rw [List.getD_append]
      · exact ih (fun k hk => h k (lt_of_lt_of_le hk (Nat.le_succ n))) hin
      · rw [hlen]
        calc i * m + j < i * m + m := by omega
          _ = (i + 1) * m := by ring
          _ ≤ n * m := Nat.mul_le_mul_right m (by omega)
    · have hieq : i = n := by omega
      subst hieq
      rw [List.getD_append_right]
      · simp [hlen]
      · rw [hlen]; omega

theorem length_gridList (s : ℕ) (f : ℕ → ℕ → ℕ → α) : (gridList s f).length = s * s * s := by
  unfold gridList
  have hmid : ∀ z, ((List.range s).flatMap fun y => (List.range s).map fun x => f x y z).length = s * s := by
    intro z
    rw [length_flatMap_const _ _ s (fun b _ => by simp), List.length_range]
  rw [length_flatMap_const _ _ (s * s) (fun b _ => hmid b), List.length_range]
  ring

theorem getD_gridList (s : ℕ) (f : ℕ → ℕ → ℕ → α) (d : α) (x y z : ℕ)
    (hx : x < s) (hy : y < s) (hz : z < s) :
    (gridList s f).getD (x + y * s + z * (s * s)) d = f x y z := by
  unfold gridList
  have hmid : ∀ k, k < s → ((List.range s).flatMap fun y => (List.range s).map fun x => f x y k).length = s * s := by
    intro k _
    rw [length_flatMap_const _ _ s (fun b _ => by simp), List.length_range]
  have hidx : x + y * s + z * (s * s) = z * (s * s) + (y * s + x) := by ring
  rw [hidx, getD_flatMap_range s (s * s) _ d hmid z (y * s + x) hz
    (by calc y * s + x < y * s + s := by omega
      _ = (y + 1) * s := by ring
      _ ≤ s * s := Nat.mul_le_mul_right s (by omega))]
  rw [getD_flatMap_range s s _ d (fun k _ => by simp) y x hy hx]
  have hget : ∀ (l : List α) (k : ℕ) (hk : k < l.length), l.getD k d = l.get ⟨k, hk⟩ := by
    intro l k hk
    rw [List.getD_eq_getElem l d hk]
    simp
  rw [hget _ x (by simp [hx])]
  simp [hx]

/-- The triangle mesh data handed to CreateMeshSection: parallel vertex and
normal arrays plus a flat triangle index array. -/
structure Mesh where
  vertices : List Vec3
  triangles : List ℤ
  normals : List Vec3
deriving DecidableEq

/-- The empty mesh (the state after ClearAllMeshSections). -/
def emptyMesh : Mesh := ⟨[], [], []⟩

/-- The state of one UProceduralTerrain component: the saved generation
parameters CurrentSize, CurrentScale, CurrentIsoLevel, the flat Density
array, and the current procedural mesh section. -/
structure ChunkState where
  currentSize : ℤ
  currentScale : ℚ
  currentIsoLevel : ℚ
  density : List ℚ
  mesh : Mesh
deriving DecidableEq

/-- Modelled from the spec: MarchingCubesTables.h is part of the repository
but missing from the source snapshot; the spec fixes its content as the
standard 256-case marching-cubes edge-activation table (edge k is active
iff exactly one endpoint corner of edge k has density below the
iso-level). -/
def edgeTable : List Nat := [
  0, 265, 515, 778, 1030, 1295, 1541, 1804, 2060, 2309, 2575, 2822, 3082, 3331, 3593, 3840,
  400, 153, 915, 666, 1430, 1183, 1941, 1692, 2460, 2197, 2975, 2710, 3482, 3219, 3993, 3728,
  560, 825, 51, 314, 1590, 1855, 1077, 1340, 2620, 2869, 2111, 2358, 3642, 3891, 3129, 3376,
  928, 681, 419, 170, 1958, 1711, 1445, 1196, 2988, 2725, 2479, 2214, 4010, 3747, 3497, 3232,
  1120, 1385, 1635, 1898, 102, 367, 613, 876, 3180, 3429, 3695, 3942, 2154, 2403, 2665, 2912,
  1520, 1273, 2035, 1786, 502, 255, 1013, 764, 3580, 3317, 4095, 3830, 2554, 2291, 3065, 2800,
  1616, 1881, 1107, 1370, 598, 863, 85, 348, 3676, 3925, 3167, 3414, 2650, 2899, 2137, 2384,
  1984, 1737, 1475, 1226, 966, 719, 453, 204, 4044, 3781, 3535, 3270, 3018, 2755, 2505, 2240,
  2240, 2505, 2755, 3018, 3270, 3535, 3781, 4044, 204, 453, 719, 966, 1226, 1475, 1737, 1984,
  2384, 2137, 2899, 2650, 3414, 3167, 3925, 3676, 348, 85, 863, 598, 1370, 1107, 1881, 1616,
  2800, 3065, 2291, 2554, 3830, 4095, 3317, 3580, 764, 1013, 255, 502, 1786, 2035, 1273, 1520,
  2912, 2665, 2403, 2154, 3942, 3695, 3429, 3180, 876, 613, 367, 102, 1898, 1635, 1385, 1120,
  3232, 3497, 3747, 4010, 2214, 2479, 2725, 2988, 1196, 1445, 1711, 1958, 170, 419, 681, 928,
  3376, 3129, 3891, 3642, 2358, 2111, 2869, 2620, 1340, 1077, 1855, 1590, 314, 51, 825, 560,
  3728, 3993, 3219, 3482, 2710, 2975, 2197, 2460, 1692, 1941, 1183, 1430, 666, 915, 153, 400,
  3840, 3593, 3331, 3082, 2822, 2575, 2309, 2060, 1804, 1541, 1295, 1030, 778, 515, 265, 0]

/-- Rows 0 to 15 of the triangle table. -/
def triTableChunk0 : List (List Int) := [
  [-1, -1, -1, -1, -1, -1, -1, -1, -1, -1, -1, -1, -1, -1, -1, -1],
  [0, 8, 3, -1, -1, -1, -1, -1, -1, -1, -1, -1, -1, -1, -1, -1],
  [0, 1, 9, -1, -1, -1, -1, -1, -1, -1, -1, -1, -1, -1, -1, -1],
  [1, 8, 3, 9, 8, 1, -1, -1, -1, -1, -1, -1, -1, -1, -1, -1],
  [1, 2, 10, -1, -1, -1, -1, -1, -1, -1, -1, -1, -1, -1, -1, -1],
  [0, 8, 3, 1, 2, 10, -1, -1, -1, -1, -1, -1, -1, -1, -1, -1],
  [9, 2, 10, 0, 2, 9, -1, -1, -1, -1, -1, -1, -1, -1, -1, -1],
  [2, 8, 3, 2, 10, 8, 10, 9, 8, -1, -1, -1, -1, -1, -1, -1],
  [3, 11, 2, -1, -1, -1, -1, -1, -1, -1, -1, -1, -1, -1, -1, -1],
  [0, 11, 2, 8, 11, 0, -1, -1, -1, -1, -1, -1, -1, -1, -1, -1],
  [1, 9, 0, 2, 3, 11, -1, -1, -1, -1, -1, -1, -1, -1, -1, -1],
  [1, 11, 2, 1, 9, 11, 9, 8, 11, -1, -1, -1, -1, -1, -1, -1],
  [3, 10, 1, 11, 10, 3, -1, -1, -1, -1, -1, -1, -1, -1, -1, -1],
  [0, 10, 1, 0, 8, 10, 8, 11, 10, -1, -1, -1, -1, -1, -1, -1],
  [3, 9, 0, 3, 11, 9, 11, 10, 9, -1, -1, -1, -1, -1, -1, -1],
  [9, 8, 10, 10, 8, 11, -1, -1, -1, -1, -1, -1, -1, -1, -1, -1]]

/-- Rows 16 to 31 of the triangle table. -/
def triTableChunk1 : List (List Int) := [
  [4, 7, 8, -1, -1, -1, -1, -1, -1, -1, -1, -1, -1, -1, -1, -1],
  [4, 3, 0, 7, 3, 4, -1, -1, -1, -1, -1, -1, -1, -1, -1, -1],
  [0, 1, 9, 8, 4, 7, -1, -1, -1, -1, -1, -1, -1, -1, -1, -1],
  [4, 1, 9, 4, 7, 1, 7, 3, 1, -1, -1, -1, -1, -1, -1, -1],
  [1, 2, 10, 8, 4, 7, -1, -1, -1, -1, -1, -1, -1, -1, -1, -1],
  [3, 4, 7, 3, 0, 4, 1, 2, 10, -1, -1, -1, -1, -1, -1, -1],
  [9, 2, 10, 9, 0, 2, 8, 4, 7, -1, -1, -1, -1, -1, -1, -1],
  [2, 10, 9, 2, 9, 7, 2, 7, 3, 7, 9, 4, -1, -1, -1, -1],
  [8, 4, 7, 3, 11, 2, -1, -1, -1, -1, -1, -1, -1, -1, -1, -1],
  [11, 4, 7, 11, 2, 4, 2, 0, 4, -1, -1, -1, -1, -1, -1, -1],
  [9, 0, 1, 8, 4, 7, 2, 3, 11, -1, -1, -1, -1, -1, -1, -1],
  [4, 7, 11, 9, 4, 11, 9, 11, 2, 9, 2, 1, -1, -1, -1, -1],
  [3, 10, 1, 3, 11, 10, 7, 8, 4, -1, -1, -1, -1, -1, -1, -1],
  [1, 11, 10, 1, 4, 11, 1, 0, 4, 7, 11, 4, -1, -1, -1, -1],
  [4, 7, 8, 9, 0, 11, 9, 11, 10, 11, 0, 3, -1, -1, -1, -1],
  [4, 7, 11, 4, 11, 9, 9, 11, 10, -1, -1, -1, -1, -1, -1, -1]]

/-- Rows 32 to 47 of the triangle table. -/
def triTableChunk2 : List (List Int) := [
  [9, 5, 4, -1, -1, -1, -1, -1, -1, -1, -1, -1, -1, -1, -1, -1],
  [9, 5, 4, 0, 8, 3, -1, -1, -1, -1, -1, -1, -1, -1, -1, -1],
  [0, 5, 4, 1, 5, 0, -1, -1, -1, -1, -1, -1, -1, -1, -1, -1],
  [8, 5, 4, 8, 3, 5, 3, 1, 5, -1, -1, -1, -1, -1, -1, -1],
  [1, 2, 10, 9, 5, 4, -1, -1, -1, -1, -1, -1, -1, -1, -1, -1],
  [3, 0, 8, 1, 2, 10, 4, 9, 5, -1, -1, -1, -1, -1, -1, -1],
  [5, 2, 10, 5, 4, 2, 4, 0, 2, -1, -1, -1, -1, -1, -1, -1],
  [2, 10, 5, 3, 2, 5, 3, 5, 4, 3, 4, 8, -1, -1, -1, -1],
  [9, 5, 4, 2, 3, 11, -1, -1, -1, -1, -1, -1, -1, -1, -1, -1],
  [0, 11, 2, 0, 8, 11, 4, 9, 5, -1, -1, -1, -1, -1, -1, -1],
  [0, 5, 4, 0, 1, 5, 2, 3, 11, -1, -1, -1, -1, -1, -1, -1],
  [2, 1, 5, 2, 5, 8, 2, 8, 11, 4, 8, 5, -1, -1, -1, -1],
  [10, 3, 11, 10, 1, 3, 9, 5, 4, -1, -1, -1, -1, -1, -1, -1],
  [4, 9, 5, 0, 8, 1, 8, 10, 1, 8, 11, 10, -1, -1, -1, -1],
  [5, 4, 0, 5, 0, 11, 5, 11, 10, 11, 0, 3, -1, -1, -1, -1],
  [5, 4, 8, 5, 8, 10, 10, 8, 11, -1, -1, -1, -1, -1, -1, -1]]

/-- Rows 48 to 63 of the triangle table. -/
def triTableChunk3 : List (List Int) := [
  [9, 7, 8, 5, 7, 9, -1, -1, -1, -1, -1, -1, -1, -1, -1, -1],
  [9, 3, 0, 9, 5, 3, 5, 7, 3, -1, -1, -1, -1, -1, -1, -1],
  [0, 7, 8, 0, 1, 7, 1, 5, 7, -1, -1, -1, -1, -1, -1, -1],
  [1, 5, 3, 3, 5, 7, -1, -1, -1, -1, -1, -1, -1, -1, -1, -1],
  [9, 7, 8, 9, 5, 7, 10, 1, 2, -1, -1, -1, -1, -1, -1, -1],
  [10, 1, 2, 9, 5, 0, 5, 3, 0, 5, 7, 3, -1, -1, -1, -1],
  [8, 0, 2, 8, 2, 5, 8, 5, 7, 10, 5, 2, -1, -1, -1, -1],
  [2, 10, 5, 2, 5, 3, 3, 5, 7, -1, -1, -1, -1, -1, -1, -1],
  [7, 9, 5, 7, 8, 9, 3, 11, 2, -1, -1, -1, -1, -1, -1, -1],
  [9, 5, 7, 9, 7, 2, 9, 2, 0, 2, 7, 11, -1, -1, -1, -1],
  [2, 3, 11, 0, 1, 8, 1, 7, 8, 1, 5, 7, -1, -1, -1, -1],
  [11, 2, 1, 11, 1, 7, 7, 1, 5, -1, -1, -1, -1, -1, -1, -1],
  [9, 5, 8, 8, 5, 7, 10, 1, 3, 10, 3, 11, -1, -1, -1, -1],
  [5, 7, 0, 5, 0, 9, 7, 11, 0, 1, 0, 10, 11, 10, 0, -1],
  [11, 10, 0, 11, 0, 3, 10, 5, 0, 8, 0, 7, 5, 7, 0, -1],
  [11, 10, 5, 7, 11, 5, -1, -1, -1, -1, -1, -1, -1, -1, -1, -1]]

/-- Rows 64 to 79 of the triangle table. -/
def triTableChunk4 : List (List Int) := [
  [10, 6, 5, -1, -1, -1, -1, -1, -1, -1, -1, -1, -1, -1, -1, -1],
  [0, 8, 3, 5, 10, 6, -1, -1, -1, -1, -1, -1, -1, -1, -1, -1],
  [9, 0, 1, 5, 10, 6, -1, -1, -1, -1, -1, -1, -1, -1, -1, -1],
  [1, 8, 3, 1, 9, 8, 5, 10, 6, -1, -1, -1, -1, -1, -1, -1],
  [1, 6, 5, 2, 6, 1, -1, -1, -1, -1, -1, -1, -1, -1, -1, -1],
  [1, 6, 5, 1, 2, 6, 3, 0, 8, -1, -1, -1, -1, -1, -1, -1],
  [9, 6, 5, 9, 0, 6, 0, 2, 6, -1, -1, -1, -1, -1, -1, -1],
  [5, 9, 8, 5, 8, 2, 5, 2, 6, 3, 2, 8, -1, -1, -1, -1],
  [2, 3, 11, 10, 6, 5, -1, -1, -1, -1, -1, -1, -1, -1, -1, -1],
  [11, 0, 8, 11, 2, 0, 10, 6, 5, -1, -1, -1, -1, -1, -1, -1],
  [0, 1, 9, 2, 3, 11, 5, 10, 6, -1, -1, -1, -1, -1, -1, -1],
  [5, 10, 6, 1, 9, 2, 9, 11, 2, 9, 8, 11, -1, -1, -1, -1],
  [6, 3, 11, 6, 5, 3, 5, 1, 3, -1, -1, -1, -1, -1, -1, -1],
  [0, 8, 11, 0, 11, 5, 0, 5, 1, 5, 11, 6, -1, -1, -1, -1],
  [3, 11, 6, 0, 3, 6, 0, 6, 5, 0, 5, 9, -1, -1, -1, -1],
  [6, 5, 9, 6, 9, 11, 11, 9, 8, -1, -1, -1, -1, -1, -1, -1]]

/-- Rows 80 to 95 of the triangle table. -/
def triTableChunk5 : List (List Int) := [
  [5, 10, 6, 4, 7, 8, -1, -1, -1, -1, -1, -1, -1, -1, -1, -1],
  [4, 3, 0, 4, 7, 3, 6, 5, 10, -1, -1, -1, -1, -1, -1, -1],
  [1, 9, 0, 5, 10, 6, 8, 4, 7, -1, -1, -1, -1, -1, -1, -1],
  [10, 6, 5, 1, 9, 7, 1, 7, 3, 7, 9, 4, -1, -1, -1, -1],
  [6, 1, 2, 6, 5, 1, 4, 7, 8, -1, -1, -1, -1, -1, -1, -1],
  [1, 2, 5, 5, 2, 6, 3, 0, 4, 3, 4, 7, -1, -1, -1, -1],
  [8, 4, 7, 9, 0, 5, 0, 6, 5, 0, 2, 6, -1, -1, -1, -1],
  [7, 3, 9, 7, 9, 4, 3, 2, 9, 5, 9, 6, 2, 6, 9, -1],
  [3, 11, 2, 7, 8, 4, 10, 6, 5, -1, -1, -1, -1, -1, -1, -1],
  [5, 10, 6, 4, 7, 2, 4, 2, 0, 2, 7, 11, -1, -1, -1, -1],
  [0, 1, 9, 4, 7, 8, 2, 3, 11, 5, 10, 6, -1, -1, -1, -1],
  [9, 2, 1, 9, 11, 2, 9, 4, 11, 7, 11, 4, 5, 10, 6, -1],
  [8, 4, 7, 3, 11, 5, 3, 5, 1, 5, 11, 6, -1, -1, -1, -1],
  [5, 1, 11, 5, 11, 6, 1, 0, 11, 7, 11, 4, 0, 4, 11, -1],
  [0, 5, 9, 0, 6, 5, 0, 3, 6, 11, 6, 3, 8, 4, 7, -1],
  [6, 5, 9, 6, 9, 11, 4, 7, 9, 7, 11, 9, -1, -1, -1, -1]]

/-- Rows 96 to 111 of the triangle table. -/
def triTableChunk6 : List (List Int) := [
  [10, 4, 9, 6, 4, 10, -1, -1, -1, -1, -1, -1, -1, -1, -1, -1],
  [4, 10, 6, 4, 9, 10, 0, 8, 3, -1, -1, -1, -1, -1, -1, -1],
  [10, 0, 1, 10, 6, 0, 6, 4, 0, -1, -1, -1, -1, -1, -1, -1],
  [8, 3, 1, 8, 1, 6, 8, 6, 4, 6, 1, 10, -1, -1, -1, -1],
  [1, 4, 9, 1, 2, 4, 2, 6, 4, -1, -1, -1, -1, -1, -1, -1],
  [3, 0, 8, 1, 2, 9, 2, 4, 9, 2, 6, 4, -1, -1, -1, -1],
  [0, 2, 4, 4, 2, 6, -1, -1, -1, -1, -1, -1, -1, -1, -1, -1],
  [8, 3, 2, 8, 2, 4, 4, 2, 6, -1, -1, -1, -1, -1, -1, -1],
  [10, 4, 9, 10, 6, 4, 11, 2, 3, -1, -1, -1, -1, -1, -1, -1],
  [0, 8, 2, 2, 8, 11, 4, 9, 10, 4, 10, 6, -1, -1, -1, -1],
  [3, 11, 2, 0, 1, 6, 0, 6, 4, 6, 1, 10, -1, -1, -1, -1],
  [6, 4, 1, 6, 1, 10, 4, 8, 1, 2, 1, 11, 8, 11, 1, -1],
  [9, 6, 4, 9, 3, 6, 9, 1, 3, 11, 6, 3, -1, -1, -1, -1],
  [8, 11, 1, 8, 1, 0, 11, 6, 1, 9, 1, 4, 6, 4, 1, -1],
  [3, 11, 6, 3, 6, 0, 0, 6, 4, -1, -1, -1, -1, -1, -1, -1],
  [6, 4, 8, 11, 6, 8, -1, -1, -1, -1, -1, -1, -1, -1, -1, -1]]

/-- Rows 112 to 127 of the triangle table. -/
def triTableChunk7 : List (List Int) := [
  [7, 10, 6, 7, 8, 10, 8, 9, 10, -1, -1, -1, -1, -1, -1, -1],
  [0, 7, 3, 0, 10, 7, 0, 9, 10, 6, 7, 10, -1, -1, -1, -1],
  [10, 6, 7, 1, 10, 7, 1, 7, 8, 1, 8, 0, -1, -1, -1, -1],
  [10, 6, 7, 10, 7, 1, 1, 7, 3, -1, -1, -1, -1, -1, -1, -1],
  [1, 2, 6, 1, 6, 8, 1, 8, 9, 8, 6, 7, -1, -1, -1, -1],
  [2, 6, 9, 2, 9, 1, 6, 7, 9, 0, 9, 3, 7, 3, 9, -1],
  [7, 8, 0, 7, 0, 6, 6, 0, 2, -1, -1, -1, -1, -1, -1, -1],
  [7, 3, 2, 6, 7, 2, -1, -1, -1, -1, -1, -1, -1, -1, -1, -1],
  [2, 3, 11, 10, 6, 8, 10, 8, 9, 8, 6, 7, -1, -1, -1, -1],
  [2, 0, 7, 2, 7, 11, 0, 9, 7, 6, 7, 10, 9, 10, 7, -1],
  [1, 8, 0, 1, 7, 8, 1, 10, 7, 6, 7, 10, 2, 3, 11, -1],
  [11, 2, 1, 11, 1, 7, 10, 6, 1, 6, 7, 1, -1, -1, -1, -1],
  [8, 9, 6, 8, 6, 7, 9, 1, 6, 11, 6, 3, 1, 3, 6, -1],
  [0, 9, 1, 11, 6, 7, -1, -1, -1, -1, -1, -1, -1, -1, -1, -1],
  [7, 8, 0, 7, 0, 6, 3, 11, 0, 11, 6, 0, -1, -1, -1, -1],
  [7, 11, 6, -1, -1, -1, -1, -1, -1, -1, -1, -1, -1, -1, -1, -1]]

/-- Rows 128 to 143 of the triangle table. -/
def triTableChunk8 : List (List Int) := [
  [7, 6, 11, -1, -1, -1, -1, -1, -1, -1, -1, -1, -1, -1, -1, -1],
  [3, 0, 8, 11, 7, 6, -1, -1, -1, -1, -1, -1, -1, -1, -1, -1],
  [0, 1, 9, 11, 7, 6, -1, -1, -1, -1, -1, -1, -1, -1, -1, -1],
  [8, 1, 9, 8, 3, 1, 11, 7, 6, -1, -1, -1, -1, -1, -1, -1],
  [10, 1, 2, 6, 11, 7, -1, -1, -1, -1, -1, -1, -1, -1, -1, -1],
  [1, 2, 10, 3, 0, 8, 6, 11, 7, -1, -1, -1, -1, -1, -1, -1],
  [2, 9, 0, 2, 10, 9, 6, 11, 7, -1, -1, -1, -1, -1, -1, -1],
  [6, 11, 7, 2, 10, 3, 10, 8, 3, 10, 9, 8, -1, -1, -1, -1],
  [7, 2, 3, 6, 2, 7, -1, -1, -1, -1, -1, -1, -1, -1, -1, -1],
  [7, 0, 8, 7, 6, 0, 6, 2, 0, -1, -1, -1, -1, -1, -1, -1],
  [2, 7, 6, 2, 3, 7, 0, 1, 9, -1, -1, -1, -1, -1, -1, -1],
  [1, 6, 2, 1, 8, 6, 1, 9, 8, 8, 7, 6, -1, -1, -1, -1],
  [10, 7, 6, 10, 1, 7, 1, 3, 7, -1, -1, -1, -1, -1, -1, -1],
  [10, 7, 6, 1, 7, 10, 1, 8, 7, 1, 0, 8, -1, -1, -1, -1],
  [0, 3, 7, 0, 7, 10, 0, 10, 9, 6, 10, 7, -1, -1, -1, -1],
  [7, 6, 10, 7, 10, 8, 8, 10, 9, -1, -1, -1, -1, -1, -1, -1]]

/-- Rows 144 to 159 of the triangle table. -/
def triTableChunk9 : List (List Int) := [
  [6, 8, 4, 11, 8, 6, -1, -1, -1, -1, -1, -1, -1, -1, -1, -1],
  [3, 6, 11, 3, 0, 6, 0, 4, 6, -1, -1, -1, -1, -1, -1, -1],
  [8, 6, 11, 8, 4, 6, 9, 0, 1, -1, -1, -1, -1, -1, -1, -1],
  [9, 4, 6, 9, 6, 3, 9, 3, 1, 11, 3, 6, -1, -1, -1, -1],
  [6, 8, 4, 6, 11, 8, 2, 10, 1, -1, -1, -1, -1, -1, -1, -1],
  [1, 2, 10, 3, 0, 11, 0, 6, 11, 0, 4, 6, -1, -1, -1, -1],
  [4, 11, 8, 4, 6, 11, 0, 2, 9, 2, 10, 9, -1, -1, -1, -1],
  [10, 9, 3, 10, 3, 2, 9, 4, 3, 11, 3, 6, 4, 6, 3, -1],
  [8, 2, 3, 8, 4, 2, 4, 6, 2, -1, -1, -1, -1, -1, -1, -1],
  [0, 4, 2, 4, 6, 2, -1, -1, -1, -1, -1, -1, -1, -1, -1, -1],
  [1, 9, 0, 2, 3, 4, 2, 4, 6, 4, 3, 8, -1, -1, -1, -1],
  [1, 9, 4, 1, 4, 2, 2, 4, 6, -1, -1, -1, -1, -1, -1, -1],
  [8, 1, 3, 8, 6, 1, 8, 4, 6, 6, 10, 1, -1, -1, -1, -1],
  [10, 1, 0, 10, 0, 6, 6, 0, 4, -1, -1, -1, -1, -1, -1, -1],
  [4, 6, 3, 4, 3, 8, 6, 10, 3, 0, 3, 9, 10, 9, 3, -1],
  [10, 9, 4, 6, 10, 4, -1, -1, -1, -1, -1, -1, -1, -1, -1, -1]]

/-- Rows 160 to 175 of the triangle table. -/
def triTableChunk10 : List (List Int) := [
  [4, 9, 5, 7, 6, 11, -1, -1, -1, -1, -1, -1, -1, -1, -1, -1],
  [0, 8, 3, 4, 9, 5, 11, 7, 6, -1, -1, -1, -1, -1, -1, -1],
  [5, 0, 1, 5, 4, 0, 7, 6, 11, -1, -1, -1, -1, -1, -1, -1],
  [11, 7, 6, 8, 3, 4, 3, 5, 4, 3, 1, 5, -1, -1, -1, -1],
  [9, 5, 4, 10, 1, 2, 7, 6, 11, -1, -1, -1, -1, -1, -1, -1],
  [6, 11, 7, 1, 2, 10, 0, 8, 3, 4, 9, 5, -1, -1, -1, -1],
  [7, 6, 11, 5, 4, 10, 4, 2, 10, 4, 0, 2, -1, -1, -1, -1],
  [3, 4, 8, 3, 5, 4, 3, 2, 5, 10, 5, 2, 11, 7, 6, -1],
  [7, 2, 3, 7, 6, 2, 5, 4, 9, -1, -1, -1, -1, -1, -1, -1],
  [9, 5, 4, 0, 8, 6, 0, 6, 2, 6, 8, 7, -1, -1, -1, -1],
  [3, 6, 2, 3, 7, 6, 1, 5, 0, 5, 4, 0, -1, -1, -1, -1],
  [6, 2, 8, 6, 8, 7, 2, 1, 8, 4, 8, 5, 1, 5, 8, -1],
  [9, 5, 4, 10, 1, 6, 1, 7, 6, 1, 3, 7, -1, -1, -1, -1],
  [1, 6, 10, 1, 7, 6, 1, 0, 7, 8, 7, 0, 9, 5, 4, -1],
  [4, 0, 10, 4, 10, 5, 0, 3, 10, 6, 10, 7, 3, 7, 10, -1],
  [7, 6, 10, 7, 10, 8, 5, 4, 10, 4, 8, 10, -1, -1, -1, -1]]

/-- Rows 176 to 191 of the triangle table. -/
def triTableChunk11 : List (List Int) := [
  [6, 9, 5, 6, 11, 9, 11, 8, 9, -1, -1, -1, -1, -1, -1, -1],
  [3, 6, 11, 0, 6, 3, 0, 5, 6, 0, 9, 5, -1, -1, -1, -1],
  [0, 11, 8, 0, 5, 11, 0, 1, 5, 5, 6, 11, -1, -1, -1, -1],
  [6, 11, 3, 6, 3, 5, 5, 3, 1, -1, -1, -1, -1, -1, -1, -1],
  [1, 2, 10, 9, 5, 11, 9, 11, 8, 11, 5, 6, -1, -1, -1, -1],
  [0, 11, 3, 0, 6, 11, 0, 9, 6, 5, 6, 9, 1, 2, 10, -1],
  [11, 8, 5, 11, 5, 6, 8, 0, 5, 10, 5, 2, 0, 2, 5, -1],
  [6, 11, 3, 6, 3, 5, 2, 10, 3, 10, 5, 3, -1, -1, -1, -1],
  [5, 8, 9, 5, 2, 8, 5, 6, 2, 3, 8, 2, -1, -1, -1, -1],
  [9, 5, 6, 9, 6, 0, 0, 6, 2, -1, -1, -1, -1, -1, -1, -1],
  [1, 5, 8, 1, 8, 0, 5, 6, 8, 3, 8, 2, 6, 2, 8, -1],
  [1, 5, 6, 2, 1, 6, -1, -1, -1, -1, -1, -1, -1, -1, -1, -1],
  [1, 3, 6, 1, 6, 10, 3, 8, 6, 5, 6, 9, 8, 9, 6, -1],
  [10, 1, 0, 10, 0, 6, 9, 5, 0, 5, 6, 0, -1, -1, -1, -1],
  [0, 3, 8, 5, 6, 10, -1, -1, -1, -1, -1, -1, -1, -1, -1, -1],
  [10, 5, 6, -1, -1, -1, -1, -1, -1, -1, -1, -1, -1, -1, -1, -1]]

/-- Rows 192 to 207 of the triangle table. -/
def triTableChunk12 : List (List Int) := [
  [11, 5, 10, 7, 5, 11, -1, -1, -1, -1, -1, -1, -1, -1, -1, -1],
  [11, 5, 10, 11, 7, 5, 8, 3, 0, -1, -1, -1, -1, -1, -1, -1],
  [5, 11, 7, 5, 10, 11, 1, 9, 0, -1, -1, -1, -1, -1, -1, -1],
  [10, 7, 5, 10, 11, 7, 9, 8, 1, 8, 3, 1, -1, -1, -1, -1],
  [11, 1, 2, 11, 7, 1, 7, 5, 1, -1, -1, -1, -1, -1, -1, -1],
  [0, 8, 3, 1, 2, 7, 1, 7, 5, 7, 2, 11, -1, -1, -1, -1],
  [9, 7, 5, 9, 2, 7, 9, 0, 2, 2, 11, 7, -1, -1, -1, -1],
  [7, 5, 2, 7, 2, 11, 5, 9, 2, 3, 2, 8, 9, 8, 2, -1],
  [2, 5, 10, 2, 3, 5, 3, 7, 5, -1, -1, -1, -1, -1, -1, -1],
  [8, 2, 0, 8, 5, 2, 8, 7, 5, 10, 2, 5, -1, -1, -1, -1],
  [9, 0, 1, 5, 10, 3, 5, 3, 7, 3, 10, 2, -1, -1, -1, -1],
  [9, 8, 2, 9, 2, 1, 8, 7, 2, 10, 2, 5, 7, 5, 2, -1],
  [1, 3, 5, 3, 7, 5, -1, -1, -1, -1, -1, -1, -1, -1, -1, -1],
  [0, 8, 7, 0, 7, 1, 1, 7, 5, -1, -1, -1, -1, -1, -1, -1],
  [9, 0, 3, 9, 3, 5, 5, 3, 7, -1, -1, -1, -1, -1, -1, -1],
  [9, 8, 7, 5, 9, 7, -1, -1, -1, -1, -1, -1, -1, -1, -1, -1]]

/-- Rows 208 to 223 of the triangle table. -/
def triTableChunk13 : List (List Int) := [
  [5, 8, 4, 5, 10, 8, 10, 11, 8, -1, -1, -1, -1, -1, -1, -1],
  [5, 0, 4, 5, 11, 0, 5, 10, 11, 11, 3, 0, -1, -1, -1, -1],
  [0, 1, 9, 8, 4, 10, 8, 10, 11, 10, 4, 5, -1, -1, -1, -1],
  [10, 11, 4, 10, 4, 5, 11, 3, 4, 9, 4, 1, 3, 1, 4, -1],
  [2, 5, 1, 2, 8, 5, 2, 11, 8, 4, 5, 8, -1, -1, -1, -1],
  [0, 4, 11, 0, 11, 3, 4, 5, 11, 2, 11, 1, 5, 1, 11, -1],
  [0, 2, 5, 0, 5, 9, 2, 11, 5, 4, 5, 8, 11, 8, 5, -1],
  [9, 4, 5, 2, 11, 3, -1, -1, -1, -1, -1, -1, -1, -1, -1, -1],
  [2, 5, 10, 3, 5, 2, 3, 4, 5, 3, 8, 4, -1, -1, -1, -1],
  [5, 10, 2, 5, 2, 4, 4, 2, 0, -1, -1, -1, -1, -1, -1, -1],
  [3, 10, 2, 3, 5, 10, 3, 8, 5, 4, 5, 8, 0, 1, 9, -1],
  [5, 10, 2, 5, 2, 4, 1, 9, 2, 9, 4, 2, -1, -1, -1, -1],
  [8, 4, 5, 8, 5, 3, 3, 5, 1, -1, -1, -1, -1, -1, -1, -1],
  [0, 4, 5, 1, 0, 5, -1, -1, -1, -1, -1, -1, -1, -1, -1, -1],
  [8, 4, 5, 8, 5, 3, 9, 0, 5, 0, 3, 5, -1, -1, -1, -1],
  [9, 4, 5, -1, -1, -1, -1, -1, -1, -1, -1, -1, -1, -1, -1, -1]]

/-- Rows 224 to 239 of the triangle table. -/
def triTableChunk14 : List (List Int) := [
  [4, 11, 7, 4, 9, 11, 9, 10, 11, -1, -1, -1, -1, -1, -1, -1],
  [0, 8, 3, 4, 9, 7, 9, 11, 7, 9, 10, 11, -1, -1, -1, -1],
  [1, 10, 11, 1, 11, 4, 1, 4, 0, 7, 4, 11, -1, -1, -1, -1],
  [3, 1, 4, 3, 4, 8, 1, 10, 4, 7, 4, 11, 10, 11, 4, -1],
  [4, 11, 7, 9, 11, 4, 9, 2, 11, 9, 1, 2, -1, -1, -1, -1],
  [9, 7, 4, 9, 11, 7, 9, 1, 11, 2, 11, 1, 0, 8, 3, -1],
  [11, 7, 4, 11, 4, 2, 2, 4, 0, -1, -1, -1, -1, -1, -1, -1],
  [11, 7, 4, 11, 4, 2, 8, 3, 4, 3, 2, 4, -1, -1, -1, -1],
  [2, 9, 10, 2, 7, 9, 2, 3, 7, 7, 4, 9, -1, -1, -1, -1],
  [9, 10, 7, 9, 7, 4, 10, 2, 7, 8, 7, 0, 2, 0, 7, -1],
  [3, 7, 10, 3, 10, 2, 7, 4, 10, 1, 10, 0, 4, 0, 10, -1],
  [1, 10, 2, 8, 7, 4, -1, -1, -1, -1, -1, -1, -1, -1, -1, -1],
  [4, 9, 1, 4, 1, 7, 7, 1, 3, -1, -1, -1, -1, -1, -1, -1],
  [4, 9, 1, 4, 1, 7, 0, 8, 1, 8, 7, 1, -1, -1, -1, -1],
  [4, 0, 3, 7, 4, 3, -1, -1, -1, -1, -1, -1, -1, -1, -1, -1],
  [4, 8, 7, -1, -1, -1, -1, -1, -1, -1, -1, -1, -1, -1, -1, -1]]

/-- Rows 240 to 255 of the triangle table. -/
def triTableChunk15 : List (List Int) := [
  [9, 10, 8, 10, 11, 8, -1, -1, -1, -1, -1, -1, -1, -1, -1, -1],
  [3, 0, 9, 3, 9, 11, 11, 9, 10, -1, -1, -1, -1, -1, -1, -1],
  [0, 1, 10, 0, 10, 8, 8, 10, 11, -1, -1, -1, -1, -1, -1, -1],
  [3, 1, 10, 11, 3, 10, -1, -1, -1, -1, -1, -1, -1, -1, -1, -1],
  [1, 2, 11, 1, 11, 9, 9, 11, 8, -1, -1, -1, -1, -1, -1, -1],
  [3, 0, 9, 3, 9, 11, 1, 2, 9, 2, 11, 9, -1, -1, -1, -1],
  [0, 2, 11, 8, 0, 11, -1, -1, -1, -1, -1, -1, -1, -1, -1, -1],
  [3, 2, 11, -1, -1, -1, -1, -1, -1, -1, -1, -1, -1, -1, -1, -1],
  [2, 3, 8, 2, 8, 10, 10, 8, 9, -1, -1, -1, -1, -1, -1, -1],
  [9, 10, 2, 0, 9, 2, -1, -1, -1, -1, -1, -1, -1, -1, -1, -1],
  [2, 3, 8, 2, 8, 10, 0, 1, 8, 1, 10, 8, -1, -1, -1, -1],
  [1, 10, 2, -1, -1, -1, -1, -1, -1, -1, -1, -1, -1, -1, -1, -1],
  [1, 3, 8, 9, 1, 8, -1, -1, -1, -1, -1, -1, -1, -1, -1, -1],
  [0, 9, 1, -1, -1, -1, -1, -1, -1, -1, -1, -1, -1, -1, -1, -1],
  [0, 3, 8, -1, -1, -1, -1, -1, -1, -1, -1, -1, -1, -1, -1, -1],
  [-1, -1, -1, -1, -1, -1, -1, -1, -1, -1, -1, -1, -1, -1, -1, -1]]

/-- Modelled from the spec: MarchingCubesTables.h is part of the repository
but missing from the source snapshot; the spec fixes its content as the
standard 256-case marching-cubes triangle table (per case, edge-index
triples terminated by a -1 sentinel in rows of 16), assembled here from
sixteen 16-row chunks. -/
def triTable : List (List Int) :=
  triTableChunk0 ++ triTableChunk1 ++ triTableChunk2 ++ triTableChunk3 ++ triTableChunk4 ++ triTableChunk5 ++ triTableChunk6 ++ triTableChunk7 ++ triTableChunk8 ++ triTableChunk9 ++ triTableChunk10 ++ triTableChunk11 ++ triTableChunk12 ++ triTableChunk13 ++ triTableChunk14 ++ triTableChunk15

/-- The fixed corner-offset ordering of the 8 cube corners
(CornerOffsets in RebuildMeshFromCurrentDensity). -/
def cornerOffsets : List (ℤ × ℤ × ℤ) :=
  [(0, 0, 0), (1, 0, 0), (1, 1, 0), (0, 1, 0), (0, 0, 1), (1, 0, 1), (1, 1, 1), (0, 1, 1)]

/-- The endpoint corner pair of each of the 12 cube edges, exactly as wired
in the twelve VertexInterp call sites of RebuildMeshFromCurrentDensity. -/
def edgeCorners : List (ℕ × ℕ) :=
  [(0, 1), (1, 2), (2, 3), (3, 0), (4, 5), (5, 6), (6, 7), (7, 4), (0, 4), (1, 5), (2, 6), (3, 7)]

/-- SampleDensity in RebuildMeshFromCurrentDensity: reads the density array
at coordinates clamped into the grid. -/
def sampleDensity (density : List ℚ) (size : ℤ) (sx sy sz : ℤ) : ℚ :=
  density.getD (getIndex size (clamp sx 0 (size - 1)) (clamp sy 0 (size - 1)) (clamp sz 0 (size - 1))).toNat 0

/-- The gradient array computed by the first pass of
RebuildMeshFromCurrentDensity: central differences of clamped samples,
divided by Scale unless Scale is nearly zero. -/
def computeGradients (density : List ℚ) (size : ℤ) (scale : ℚ) : List Vec3 :=
  gridList size.toNat fun x y z =>
    let xi : ℤ := x
    let yi : ℤ := y
    let zi : ℤ := z
    let dx := sampleDensity density size (xi + 1) yi zi - sampleDensity density size (xi - 1) yi zi
    let dy := sampleDensity density size xi (yi + 1) zi - sampleDensity density size xi (yi - 1) zi
    let dz := sampleDensity density size xi yi (zi + 1) - sampleDensity density size xi yi (zi - 1)
    if ¬ isNearlyZero scale then ⟨dx / scale, dy / scale, dz / scale⟩
    else (⟨dx, dy, dz⟩ : Vec3)

/-- The result record of the VertexInterp lambda. -/
structure VertexInterpResult where
  position : Vec3
  normal : Vec3
deriving DecidableEq

instance : Inhabited VertexInterpResult := ⟨⟨Vec3.zero, Vec3.zero⟩⟩

/-- The VertexInterp lambda of RebuildMeshFromCurrentDensity: tie-break
cases first (corner 1 if the iso-level nearly equals the first corner
value, corner 2 if it nearly equals the second, corner 1 if the corner
values are nearly equal), otherwise linear interpolation at fraction
mu = (isoLevel - valp1) / (valp2 - valp1); the blended normal falls back
to UpVector when it fails to normalize. -/
def vertexInterp (isoLevel : ℚ) (p1 p2 : Vec3) (valp1 valp2 : ℚ) (n1 n2 : Vec3) : VertexInterpResult :=
  if fabs (isoLevel - valp1) < kindaSmallNumber then ⟨p1, n1.getSafeNormal⟩
  else if fabs (isoLevel - valp2) < kindaSmallNumber then ⟨p2, n2.getSafeNormal⟩
  else if fabs (valp1 - valp2) < kindaSmallNumber then ⟨p1, n1.getSafeNormal⟩
  else
    let mu := (isoLevel - valp1) / (valp2 - valp1)
    let pos := p1 + mu • (p2 - p1)
    let nrm := n1 + mu • (n2 - n1)
    match nrm.normalizeOpt with
    | some n => ⟨pos, n⟩
    | none => ⟨pos, Vec3.upVector⟩

/-- The AddNormal lambda of RebuildMeshFromCurrentDensity: uses the
candidate normal if it normalizes, and the flat face normal otherwise. -/
def addNormal (faceNormal candidate : Vec3) : Vec3 :=
  match candidate.normalizeOpt with
  | some n => n
  | none => faceNormal

/-- Appends one emitted triangle (three fresh vertices, three indices from
the running base index, three normals through AddNormal) to the mesh. -/
def emitTriangle (m : Mesh) (r0 r1 r2 : VertexInterpResult) : Mesh :=
  let v0 := r0.position
  let v1 := r1.position
  let v2 := r2.position
  let base : ℤ := m.vertices.length
  let faceNormal := (Vec3.cross (v1 - v0) (v2 - v0)).getSafeNormal
  { vertices := m.vertices ++ [v0, v1, v2]
    triangles := m.triangles ++ [base, base + 1, base + 2]
    normals := m.normals ++ [addNormal faceNormal r0.normal, addNormal faceNormal r1.normal, addNormal faceNormal r2.normal] }

/-- Reads the edge-index triples of one triangle-table row, stopping at the
-1 sentinel checked on the first entry of each triple (the loop
for (i = 0; triTable[cubeIndex][i] != -1; i += 3)). -/
def triTriples : List ℤ → List (ℤ × ℤ × ℤ)
  | a :: b :: c :: rest => if a = -1 then [] else (a, b, c) :: triTriples rest
  | _ => []

/-- The position of corner i of a unit cube (the p array of the corner
fetch loop): the cube cell coordinates plus the corner offset, scaled. -/
def cubeCornerPos (scale : ℚ) (cube : ℕ × ℕ × ℕ) (i : ℕ) : Vec3 :=
  let o := cornerOffsets.getD i (0, 0, 0)
  ⟨(((cube.1 : ℤ) + o.1 : ℤ) : ℚ) * scale, (((cube.2.1 : ℤ) + o.2.1 : ℤ) : ℚ) * scale,
   (((cube.2.2 : ℤ) + o.2.2 : ℤ) : ℚ) * scale⟩

/-- The density of corner i of a unit cube (the val array of the corner
fetch loop). -/
def cubeCornerVal (density : List ℚ) (size : ℤ) (cube : ℕ × ℕ × ℕ) (i : ℕ) : ℚ :=
  let o := cornerOffsets.getD i (0, 0, 0)
  density.getD (getIndex size ((cube.1 : ℤ) + o.1) ((cube.2.1 : ℤ) + o.2.1) ((cube.2.2 : ℤ) + o.2.2)).toNat 0

/-- The safe-normalized gradient of corner i of a unit cube (the grad
array of the corner fetch loop). -/
def cubeCornerGrad (gradients : List Vec3) (size : ℤ) (cube : ℕ × ℕ × ℕ) (i : ℕ) : Vec3 :=
  let o := cornerOffsets.getD i (0, 0, 0)
  (gradients.getD (getIndex size ((cube.1 : ℤ) + o.1) ((cube.2.1 : ℤ) + o.2.1) ((cube.2.2 : ℤ) + o.2.2)).toNat Vec3.zero).getSafeNormal

/-- The 8-bit marching-cubes case index of a unit cube: bit i is set iff
corner i has density below the iso-level. -/
def cubeIndexOf (density : List ℚ) (size : ℤ) (isoLevel : ℚ) (cube : ℕ × ℕ × ℕ) : ℕ :=
  (if cubeCornerVal density size cube 0 < isoLevel then 1 else 0) +
  (if cubeCornerVal density size cube 1 < isoLevel then 2 else 0) +
  (if cubeCornerVal density size cube 2 < isoLevel then 4 else 0) +
  (if cubeCornerVal density size cube 3 < isoLevel then 8 else 0) +
  (if cubeCornerVal density size cube 4 < isoLevel then 16 else 0) +
  (if cubeCornerVal density size cube 5 < isoLevel then 32 else 0) +
  (if cubeCornerVal density size cube 6 < isoLevel then 64 else 0) +
  (if cubeCornerVal density size cube 7 < isoLevel then 128 else 0)

/-- Entry e of the vertList array: edges whose edge-table bit is set get
the interpolated vertex between their endpoint corners (the twelve
VertexInterp call sites); the other entries are never read by the triangle
table and stand for the uninitialized stack slots of the source. -/
def cubeVertList (density : List ℚ) (gradients : List Vec3) (size : ℤ) (scale isoLevel : ℚ)
    (cube : ℕ × ℕ × ℕ) (e : ℕ) : VertexInterpResult :=
  if edgeTable.getD (cubeIndexOf density size isoLevel cube) 0 / 2 ^ e % 2 = 1 then
    let c := edgeCorners.getD e (0, 0)
    vertexInterp isoLevel (cubeCornerPos scale cube c.1) (cubeCornerPos scale cube c.2)
      (cubeCornerVal density size cube c.1) (cubeCornerVal density size cube c.2)
      (cubeCornerGrad gradients size cube c.1) (cubeCornerGrad gradients size cube c.2)
  else default

/-- Processes one unit cube of the marching-cubes pass of
RebuildMeshFromCurrentDensity: builds the case index from the 8 corner
densities, skips the cube when its edge-table entry is zero (modelled as
an empty triangle row, so the cube appends nothing), interpolates the
active edges, and emits the triangles listed by the triangle table. -/
def processCube (density : List ℚ) (gradients : List Vec3) (size : ℤ) (scale isoLevel : ℚ)
    (m : Mesh) (cube : ℕ × ℕ × ℕ) : Mesh :=
  let cubeIndex := cubeIndexOf density size isoLevel cube
  let rows := if edgeTable.getD cubeIndex 0 = 0 then [] else triTriples (triTable.getD cubeIndex [])
  rows.foldl
    (fun acc t => emitTriangle acc (cubeVertList density gradients size scale isoLevel cube t.1.toNat)
      (cubeVertList density gradients size scale isoLevel cube t.2.1.toNat)
      (cubeVertList density gradients size scale isoLevel cube t.2.2.toNat)) m

/-- The cube iteration space of the marching-cubes pass: all cubes of the
(size-1)^3 grid in z-major, then y, then x order. -/
def cubeCells (s : ℕ) : List (ℕ × ℕ × ℕ) := gridCells s

/-- RebuildMeshFromCurrentDensity: on inconsistent data (Size at most 1 or
a density array whose length is not Size^3) clears all mesh sections and
returns; otherwise computes gradients, runs marching cubes over the
(Size-1)^3 cubes and replaces the mesh wholesale. -/
def rebuildMeshFromCurrentDensity (s : ChunkState) : ChunkState :=
  if s.currentSize ≤ 1 ∨ (s.density.length : ℤ) ≠ s.currentSize * s.currentSize * s.currentSize then
    { s with mesh := emptyMesh }
  else
    let gradients := computeGradients s.density s.currentSize s.currentScale
    let m := (cubeCells (s.currentSize - 1).toNat).foldl
      (processCube s.density gradients s.currentSize s.currentScale s.currentIsoLevel) emptyMesh
    { s with mesh := m }

/-- The placement data of a scene component used by DigSphere: the
component transform is modelled as a translation plus componentwise scale
(the repository attaches chunks with KeepRelativeTransform and only ever
sets relative locations, so no rotation is involved). -/
structure ComponentPlacement where
  location : Vec3
  scale3D : Vec3
deriving DecidableEq

/-- FTransform InverseTransformPosition for a translation-and-scale
transform: subtract the translation, divide componentwise by the scale. -/
def inverseTransformPosition (t : ComponentPlacement) (v : Vec3) : Vec3 :=
  Vec3.divComp (v - t.location) t.scale3D

/-- The identity component placement (chunk at the world origin, unit
scale). -/
def identityPlacement : ComponentPlacement := ⟨Vec3.zero, ⟨1, 1, 1⟩⟩

/-- The per-voxel body of the DigSphere triple loop: out-of-bounds voxels
are skipped (continue), in-bounds voxels within Euclidean RadiusVoxels of
the local (fractional) voxel-space center receive the additive
radial-falloff update Strength * (1 - Dist / RadiusVoxels).  When
RadiusVoxels is 0 and the guard Dist <= RadiusVoxels passes, the source
divides 0.0f by 0.0f and adds Strength * (1 - NaN) = NaN to the sample;
a density holding NaN is outside the rational embedding, so that write is
modelled as none. -/
def digVoxel (size : ℤ) (center : Vec3) (radiusVoxels : ℤ) (strength : ℚ)
    (d : List ℚ) (v : ℤ × ℤ × ℤ) : Option (List ℚ) :=
  if v.1 < 0 ∨ v.2.1 < 0 ∨ v.2.2 < 0 ∨ size ≤ v.1 ∨ size ≤ v.2.1 ∨ size ≤ v.2.2 then some d
  else
    let voxelPos : Vec3 := ⟨(v.1 : ℚ), (v.2.1 : ℚ), (v.2.2 : ℚ)⟩
    let distV := Vec3.dist voxelPos center
    if distV ≤ (radiusVoxels : ℚ) then
      if radiusVoxels = 0 then none
      else
        let idx := (getIndex size v.1 v.2.1 v.2.2).toNat
        some (d.set idx (d.getD idx 0 + strength * (1 - distV / (radiusVoxels : ℚ))))
    else some d

/-- The DigSphere triple loop over the voxel cube of side 2 * RadiusVoxels + 1
around the rounded center, in z-major, then y, then x order; a NaN write
by any voxel poisons the density array (none). -/
def digLoop (size : ℤ) (xc yc zc : ℤ) (center : Vec3) (radiusVoxels : ℤ) (strength : ℚ)
    (d : List ℚ) : Option (List ℚ) :=
  ((intRange (zc - radiusVoxels) (zc + radiusVoxels)).flatMap fun z =>
    (intRange (yc - radiusVoxels) (yc + radiusVoxels)).flatMap fun y =>
      (intRange (xc - radiusVoxels) (xc + radiusVoxels)).map fun x => (x, y, z)).foldl
    (fun od v => od.bind fun d0 => digVoxel size center radiusVoxels strength d0 v) (some d)

/-- UProceduralTerrain DigSphere: returns unchanged on empty density,
non-positive size or nearly-zero scale; otherwise converts the world
position to local voxel space through the component transform, applies the
radial-falloff additive update to every in-bounds voxel within the voxel
radius, and rebuilds the mesh from the updated density.  The result is
none when the voxel loop writes NaN into the density (RadiusVoxels 0 with
the dig center on an in-bounds voxel): the chunk is then mutated but its
density is no longer a rational array. -/
def digSphere (t : ComponentPlacement) (s : ChunkState)
    (worldPosition : Vec3) (radius strength : ℚ) : Option ChunkState :=
  if s.density = [] ∨ s.currentSize ≤ 0 ∨ isNearlyZero s.currentScale then some s
  else
    let localPositionUnits := inverseTransformPosition t worldPosition
    let localVoxelPosition := localPositionUnits.divScalar s.currentScale
    let xCenter := roundToInt localVoxelPosition.x
    let yCenter := roundToInt localVoxelPosition.y
    let zCenter := roundToInt localVoxelPosition.z
    let uniformScale := fmax t.scale3D.getAbsMax kindaSmallNumber
    let localRadiusUnits := radius / uniformScale
    let radiusVoxels := ceilToInt (localRadiusUnits / s.currentScale)
    (digLoop s.currentSize xCenter yCenter zCenter localVoxelPosition radiusVoxels strength s.density).map
      fun d1 => rebuildMeshFromCurrentDensity { s with density := d1 }

/-- UProceduralTerrain BuildDensityField: saves Size and Scale, resizes the
density array to Size^3 and fills every cell with
(z - HeightBias) + PerlinNoise3D(WorldPos * NoiseScale) * NoiseStrength
where WorldPos = ChunkWorldOrigin + (x, y, z) * Scale.  The noise source
is an external collaborator and is passed as a function parameter.  The
mesh is not touched by this operation. -/
def buildDensityField (noise : Vec3 → ℚ) (origin : Vec3) (size : ℤ)
    (scale noiseScale heightBias noiseStrength : ℚ) (s : ChunkState) : ChunkState :=
  { s with
    currentSize := size
    currentScale := scale
    density := gridList size.toNat fun x y z =>
      let worldPos := origin + (⟨(x : ℚ) * scale, (y : ℚ) * scale, (z : ℚ) * scale⟩ : Vec3)
      let noiseV := noise (noiseScale • worldPos)
      ((z : ℚ) - heightBias) + noiseV * noiseStrength }

/-- The per-cell density value that section 4.1 of the specification
prescribes for populate, written from the words of the spec for comparison
with the source embedding: density = (worldZ / scale - heightBias) +
noise3D(worldPos * noiseFrequency) * noiseStrength with
worldPos = origin + (x, y, z) * scale. -/
def specPopulateValue (noise : Vec3 → ℚ) (origin : Vec3)
    (scale noiseFrequency heightBias noiseStrength : ℚ) (x y z : ℕ) : ℚ :=
  let worldPos := origin + (⟨(x : ℚ) * scale, (y : ℚ) * scale, (z : ℚ) * scale⟩ : Vec3)
  (worldPos.z / scale - heightBias) + noise (noiseFrequency • worldPos) * noiseStrength

/-- The logical content of a parsed terrain JSON record: the Size, Scale
and IsoLevel number fields, and the optional Density array field (none
when TryGetArrayField fails). -/
structure TerrainRecord where
  size : ℤ
  scale : ℚ
  isoLevel : ℚ
  density : Option (List ℚ)
deriving DecidableEq

/-- UProceduralTerrain LoadDensityFromJSON, modelled after the file has
been read and parsed: none stands for a missing file or a parse failure
(early return, state untouched).  On a parsed record the stored size,
scale and iso-level are overwritten unconditionally; if the density array
field is present the density is overwritten and the mesh rebuilt,
otherwise the function returns with only the scalar fields changed. -/
def loadDensityFromJSON (s : ChunkState) (parsed : Option TerrainRecord) : ChunkState :=
  match parsed with
  | none => s
  | some r =>
    let s1 := { s with currentSize := r.size, currentScale := r.scale, currentIsoLevel := r.isoLevel }
    match r.density with
    | some arr => rebuildMeshFromCurrentDensity { s1 with density := arr }
    | none => s1

/-- One chunk owned by AProceduralTerrainWorld: its grid coordinates, its
world placement (component location; the world actor root is taken at the
origin with unit scale), whether it belongs to the persistent initial
grid, and its component state. -/
structure WorldChunk where
  coords : ℤ × ℤ × ℤ
  location : Vec3
  persistent : Bool
  state : ChunkState
deriving DecidableEq

/-- The per-axis contribution to the squared distance from a point to an
axis-aligned box interval. -/
def axisDistSq (c lo hi : ℚ) : ℚ :=
  if c < lo then (c - lo) * (c - lo)
  else if hi < c then (c - hi) * (c - hi)
  else 0

/-- FMath SphereAABBIntersection: squared distance from the sphere center
to the box compared against the squared radius. -/
def sphereAABBIntersection (center : Vec3) (radius : ℚ) (bmin bmax : Vec3) : Prop :=
  axisDistSq center.x bmin.x bmax.x + axisDistSq center.y bmin.y bmax.y +
    axisDistSq center.z bmin.z bmax.z ≤ radius * radius

instance (center : Vec3) (radius : ℚ) (bmin bmax : Vec3) :
    Decidable (sphereAABBIntersection center radius bmin bmax) := by
  unfold sphereAABBIntersection; infer_instance

/-- The per-voxel body of the duplicated dig loop in
AProceduralTerrainWorld DigAt.  It differs from digVoxel in one respect
faithful to the source: the falloff distance is measured to the rounded
integer center (XCenter, YCenter, ZCenter), not to the fractional local
voxel position.  Like digVoxel, a write at RadiusVoxels 0 divides 0.0f
by 0.0f in the source and stores NaN, modelled as none. -/
def digAtVoxel (chunkSize : ℤ) (xc yc zc : ℤ) (radiusVoxels : ℤ) (strength : ℚ)
    (d : List ℚ) (v : ℤ × ℤ × ℤ) : Option (List ℚ) :=
  if v.1 < 0 ∨ v.2.1 < 0 ∨ v.2.2 < 0 ∨ chunkSize ≤ v.1 ∨ chunkSize ≤ v.2.1 ∨ chunkSize ≤ v.2.2 then some d
  else
    let voxelPos : Vec3 := ⟨(v.1 : ℚ), (v.2.1 : ℚ), (v.2.2 : ℚ)⟩
    let distV := Vec3.dist voxelPos ⟨(xc : ℚ), (yc : ℚ), (zc : ℚ)⟩
    if distV ≤ (radiusVoxels : ℚ) then
      if radiusVoxels = 0 then none
      else
        let idx := (getIndex chunkSize v.1 v.2.1 v.2.2).toNat
        some (d.set idx (d.getD idx 0 + strength * (1 - distV / (radiusVoxels : ℚ))))
    else some d

/-- The DigAt per-chunk density update: local voxel coordinates from the
chunk component location and the world TerrainScale, rounded center,
radius in voxels from ceil(Radius / TerrainScale), and the triple loop
over the voxel cube with the rounded-center falloff. -/
def digAtChunkDensity (chunkSize : ℤ) (terrainScale : ℚ) (chunkLocation : Vec3)
    (worldPosition : Vec3) (radius strength : ℚ) (d : List ℚ) : Option (List ℚ) :=
  let localPosUnits := worldPosition - chunkLocation
  let localVoxelPos := localPosUnits.divScalar terrainScale
  let xCenter := roundToInt localVoxelPos.x
  let yCenter := roundToInt localVoxelPos.y
  let zCenter := roundToInt localVoxelPos.z
  let radiusVoxels := ceilToInt (radius / terrainScale)
  ((intRange (zCenter - radiusVoxels) (zCenter + radiusVoxels)).flatMap fun z =>
    (intRange (yCenter - radiusVoxels) (yCenter + radiusVoxels)).flatMap fun y =>
      (intRange (xCenter - radiusVoxels) (xCenter + radiusVoxels)).map fun x => (x, y, z)).foldl
    (fun od v => od.bind fun d0 => digAtVoxel chunkSize xCenter yCenter zCenter radiusVoxels strength d0 v)
    (some d)

/-- AProceduralTerrainWorld DigAt: every chunk with a non-empty density
whose world box (from its component location to location plus
(ChunkSize - 1) * TerrainScale per axis) intersects the dig sphere gets
the duplicated per-voxel falloff update applied to its density buffer and
its mesh rebuilt once; all other chunks are left untouched.  The result
is none when any updated chunk's density receives the NaN write (the
radius rounds to zero voxels and the rounded center is in bounds). -/
def digAt (chunkSize : ℤ) (terrainScale : ℚ) (chunks : List WorldChunk)
    (worldPosition : Vec3) (radius strength : ℚ) : Option (List WorldChunk) :=
  chunks.foldr (fun ch acc =>
    let och : Option WorldChunk :=
      if ch.state.density = [] then some ch
      else
        let chunkMin := ch.location
        let chunkMax := ch.location + (⟨((chunkSize - 1 : ℤ) : ℚ) * terrainScale,
          ((chunkSize - 1 : ℤ) : ℚ) * terrainScale, ((chunkSize - 1 : ℤ) : ℚ) * terrainScale⟩ : Vec3)
        if sphereAABBIntersection worldPosition radius chunkMin chunkMax then
          (digAtChunkDensity chunkSize terrainScale ch.location worldPosition radius strength ch.state.density).map
            fun d1 => { ch with state := rebuildMeshFromCurrentDensity { ch.state with density := d1 } }
        else some ch
    och.bind fun c => acc.map fun rest => c :: rest) (some [])

/-- The streaming-relevant state of AProceduralTerrainWorld: the live chunk
list, the last recorded player chunk center, and the editable terrain and
streaming parameters. -/
structure WorldState where
  chunks : List WorldChunk
  lastPlayerChunkCenter : Vec3
  chunkSize : ℤ
  terrainScale : ℚ
  noiseScale : ℚ
  heightBias : ℚ
  noiseStrength : ℚ
  streamRadius : ℤ
deriving DecidableEq

/-- A freshly created streamed chunk in UpdateStreamedChunks: a new
component at offset Coords * (ChunkSize - 1) * TerrainScale with default
state, then either loaded from its persisted record (followed by an
explicit rebuild) or generated (BuildDensityField then a rebuild). -/
def makeStreamedChunk (noise : Vec3 → ℚ) (savedRecord : ℤ × ℤ × ℤ → Option TerrainRecord)
    (w : WorldState) (c : ℤ × ℤ × ℤ) : WorldChunk :=
  let offset : Vec3 := ⟨(c.1 : ℚ) * ((w.chunkSize - 1 : ℤ) : ℚ) * w.terrainScale,
    (c.2.1 : ℚ) * ((w.chunkSize - 1 : ℤ) : ℚ) * w.terrainScale,
    (c.2.2 : ℚ) * ((w.chunkSize - 1 : ℤ) : ℚ) * w.terrainScale⟩
  let fresh : ChunkState := ⟨0, 1, 0, [], emptyMesh⟩
  let st := match savedRecord c with
    | some r => rebuildMeshFromCurrentDensity (loadDensityFromJSON fresh (some r))
    | none => rebuildMeshFromCurrentDensity
        (buildDensityField noise offset w.chunkSize w.terrainScale w.noiseScale w.heightBias w.noiseStrength fresh)
  ⟨c, offset, false, st⟩

/-- The chunk world width (ChunkSize - 1) * TerrainScale (the X component
of the ChunkWorldSize vector, whose three components are all equal). -/
def chunkWorldWidth (w : WorldState) : ℚ := ((w.chunkSize - 1 : ℤ) : ℚ) * w.terrainScale

/-- The player chunk coordinate of UpdateStreamedChunks: floor of the
player position against the chunk world size, with Z pinned to 0. -/
def playerChunkCoordsOf (w : WorldState) (p : Vec3) : ℤ × ℤ × ℤ :=
  (floorToInt (p.x / chunkWorldWidth w), floorToInt (p.y / chunkWorldWidth w), 0)

/-- The player chunk center FVector(PlayerChunkCoords) * ChunkWorldSize. -/
def playerChunkCenterOf (w : WorldState) (p : Vec3) : Vec3 :=
  ⟨((playerChunkCoordsOf w p).1 : ℚ) * chunkWorldWidth w,
   ((playerChunkCoordsOf w p).2.1 : ℚ) * chunkWorldWidth w,
   ((playerChunkCoordsOf w p).2.2 : ℚ) * chunkWorldWidth w⟩

/-- The desired streaming window: the square of side 2 * StreamRadius + 1
of chunk coordinates around the player chunk coordinate, at Z = 0. -/
def desiredChunksOf (w : WorldState) (p : Vec3) : List (ℤ × ℤ × ℤ) :=
  (intRange (-w.streamRadius) w.streamRadius).flatMap fun dx =>
    (intRange (-w.streamRadius) w.streamRadius).map fun dy =>
      ((playerChunkCoordsOf w p).1 + dx, (playerChunkCoordsOf w p).2.1 + dy, 0)

/-- The chunk list produced by the removal and creation passes of
UpdateStreamedChunks: every live chunk that is outside the desired set and
not persistent is destroyed, then a chunk is created (appended) for every
desired coordinate with no live chunk. -/
def streamedChunksOf (noise : Vec3 → ℚ) (savedRecord : ℤ × ℤ × ℤ → Option TerrainRecord)
    (w : WorldState) (p : Vec3) : List WorldChunk :=
  let desired := desiredChunksOf w p
  let kept := w.chunks.filter fun ch => ch.coords ∈ desired ∨ ch.persistent = true
  desired.foldl
    (fun acc c => if acc.any fun ch => ch.coords = c then acc else acc ++ [makeStreamedChunk noise savedRecord w c])
    kept

/-- AProceduralTerrainWorld UpdateStreamedChunks: returns unchanged while
the quantized player chunk center stays within half a chunk width of the
last recorded center (the hysteresis test); otherwise records the new
center and replaces the chunk list with the streamed one. -/
def updateStreamedChunks (noise : Vec3 → ℚ) (savedRecord : ℤ × ℤ × ℤ → Option TerrainRecord)
    (w : WorldState) (playerPos : Vec3) : WorldState :=
  if Vec3.dist (playerChunkCenterOf w playerPos) w.lastPlayerChunkCenter < chunkWorldWidth w * (1/2) then w
  else
    { w with
      chunks := streamedChunksOf noise savedRecord w playerPos
      lastPlayerChunkCenter := playerChunkCenterOf w playerPos }

/-- The generation-scheduling state of AProceduralTerrainWorld: the
bIsGenerating flag, the CompletedChunks counter, the grid chunk count, and
the number of scheduled per-chunk asynchronous generation tasks not yet
completed (the observable that counts in-flight full-grid passes). -/
structure GenState where
  isGenerating : Bool
  completedChunks : ℤ
  numChunks : ℕ
  inFlight : ℕ
deriving DecidableEq

/-- GenerateAllChunks: schedules one asynchronous generation task per
chunk.  Faithful to the source, it neither checks nor sets bIsGenerating
and does not reset CompletedChunks. -/
def generateAllChunks (g : GenState) : GenState :=
  { g with inFlight := g.inFlight + g.numChunks }

/-- The OnConstruction step: guarded by bIsGenerating (early return when a
generation is already in progress); otherwise recreates the grid, sets
bIsGenerating and resets CompletedChunks, then either loads every chunk
from disk (clearing the flag) or starts a full-grid generation. -/
def onConstructionStep (filesExist : Bool) (g : GenState) : GenState :=
  if g.isGenerating then g
  else
    let g1 := { g with isGenerating := true, completedChunks := 0 }
    if filesExist then { g1 with isGenerating := false }
    else generateAllChunks g1

/-- The BeginPlay step: when some chunk has no saved file, calls
GenerateAllChunks once (the loop breaks after the first missing file).
Faithful to the source, this path performs no bIsGenerating check. -/
def beginPlayStep (anyChunkFileMissing : Bool) (g : GenState) : GenState :=
  if anyChunkFileMissing then generateAllChunks g else g

/-- The game-thread completion callback of one asynchronous chunk task:
decrements the in-flight count, increments CompletedChunks, and clears
bIsGenerating when the counter reaches the chunk count. -/
def completeOneStep (g : GenState) : GenState :=
  if g.inFlight = 0 then g
  else
    let g1 := { g with inFlight := g.inFlight - 1, completedChunks := g.completedChunks + 1 }
    if (g1.numChunks : ℤ) ≤ g1.completedChunks then { g1 with isGenerating := false } else g1

/-- The density-array indices read by the gradient pass of
RebuildMeshFromCurrentDensity: for every voxel of the size^3 grid, the six
clamped central-difference samples. -/
def gradientReadIndices (size : ℤ) : List ℤ :=
  (gridCells size.toNat).flatMap fun cell =>
    let xi : ℤ := cell.1
    let yi : ℤ := cell.2.1
    let zi : ℤ := cell.2.2
    [getIndex size (clamp (xi + 1) 0 (size - 1)) (clamp yi 0 (size - 1)) (clamp zi 0 (size - 1)),
     getIndex size (clamp (xi - 1) 0 (size - 1)) (clamp yi 0 (size - 1)) (clamp zi 0 (size - 1)),
     getIndex size (clamp xi 0 (size - 1)) (clamp (yi + 1) 0 (size - 1)) (clamp zi 0 (size - 1)),
     getIndex size (clamp xi 0 (size - 1)) (clamp (yi - 1) 0 (size - 1)) (clamp zi 0 (size - 1)),
     getIndex size (clamp xi 0 (size - 1)) (clamp yi 0 (size - 1)) (clamp (zi + 1) 0 (size - 1)),
     getIndex size (clamp xi 0 (size - 1)) (clamp yi 0 (size - 1)) (clamp (zi - 1) 0 (size - 1))]

/-- The density-array indices read by the corner-fetch loop of the
marching-cubes pass: for every cube of the (size - 1)^3 grid, the eight
corner indices. -/
def cubeCornerReadIndices (size : ℤ) : List ℤ :=
  (cubeCells (size - 1).toNat).flatMap fun cube =>
    cornerOffsets.map fun o =>
      getIndex size ((cube.1 : ℤ) + o.1) ((cube.2.1 : ℤ) + o.2.1) ((cube.2.2 : ℤ) + o.2.2)

/-- A concrete 3x3x3 density field for exercising the marching-cubes pass:
every sample is 1 except the grid center, which is barely below the
iso-level of 0. -/
def c2Density : List ℚ :=
  [1, 1, 1, 1, 1, 1, 1, 1, 1,
   1, 1, 1, 1, -1/100000, 1, 1, 1, 1,
   1, 1, 1, 1, 1, 1, 1, 1, 1]

/-- The value of computeGradients on c2Density (established below by
evaluation): zero everywhere except at the six face neighbours of the
center sample. -/
def c2Gradients : List Vec3 :=
  [Vec3.zero, Vec3.zero, Vec3.zero, Vec3.zero, ⟨0, 0, -(100001/100000)⟩, Vec3.zero,
   Vec3.zero, Vec3.zero, Vec3.zero,
   Vec3.zero, ⟨0, -(100001/100000), 0⟩, Vec3.zero, ⟨-(100001/100000), 0, 0⟩, Vec3.zero,
   ⟨100001/100000, 0, 0⟩, Vec3.zero, ⟨0, 100001/100000, 0⟩, Vec3.zero,
   Vec3.zero, Vec3.zero, Vec3.zero, Vec3.zero, ⟨0, 0, 100001/100000⟩, Vec3.zero,
   Vec3.zero, Vec3.zero, Vec3.zero]

/-- A chunk state holding c2Density at Size 3, Scale 1, IsoLevel 0. -/
def c2State : ChunkState := ⟨3, 1, 0, c2Density, emptyMesh⟩

theorem fabs_nonneg (x : ℚ) : 0 ≤ fabs x := by
  unfold fabs; split <;> linarith

theorem fabs_sub_comm (a b : ℚ) : fabs (a - b) = fabs (b - a) := by
  unfold fabs; split <;> split <;> linarith

/-- Setting a list entry to the value already stored there is the
identity. -/
theorem set_getD_self (l : List ℚ) (i : ℕ) : l.set i (l.getD i 0) = l := by
  induction l generalizing i with
  | nil => simp
  | cons a t ih =>
    cases i with
    | zero => simp [List.getD]
    | succ n => simpa [List.getD] using ih n

/-- Folding a function that never changes the accumulator returns the
initial accumulator. -/
theorem foldl_fixed_point (f : β → γ → β) (d : β) (l : List γ)
    (h : ∀ v ∈ l, f d v = d) : l.foldl f d = d := by
  induction l with
  | nil => rfl
  | cons a t ih =>
    rw [List.foldl_cons, h a (List.mem_cons_self a t)]
    exact ih (fun v hv => h v (List.mem_cons_of_mem a hv))

/-- C7: for every active cube edge, the VertexInterp lambda returns corner
1 unmodified when the iso-level nearly equals the first corner value,
corner 2 when it nearly equals the second, corner 1 when the two corner
values are nearly equal, and otherwise the linear interpolation
p1 + mu * (p2 - p1) with mu = (isoLevel - valp1) / (valp2 - valp1); in the
interpolating branch the divisor valp2 - valp1 has absolute value at least
KINDA_SMALL_NUMBER, so the division is never by a near-zero difference and
the result is never a NaN. -/
theorem vertexInterp_position_spec (isoLevel : ℚ) (p1 p2 : Vec3) (v1 v2 : ℚ) (n1 n2 : Vec3) :
    (fabs (isoLevel - v1) < kindaSmallNumber →
      (vertexInterp isoLevel p1 p2 v1 v2 n1 n2).position = p1) ∧
    (kindaSmallNumber ≤ fabs (isoLevel - v1) → fabs (isoLevel - v2) < kindaSmallNumber →
      (vertexInterp isoLevel p1 p2 v1 v2 n1 n2).position = p2) ∧
    (kindaSmallNumber ≤ fabs (isoLevel - v1) → kindaSmallNumber ≤ fabs (isoLevel - v2) →
      fabs (v1 - v2) < kindaSmallNumber →
      (vertexInterp isoLevel p1 p2 v1 v2 n1 n2).position = p1) ∧
    (kindaSmallNumber ≤ fabs (isoLevel - v1) → kindaSmallNumber ≤ fabs (isoLevel - v2) →
      kindaSmallNumber ≤ fabs (v1 - v2) →
      (vertexInterp isoLevel p1 p2 v1 v2 n1 n2).position =
        p1 + ((isoLevel - v1) / (v2 - v1)) • (p2 - p1) ∧
      kindaSmallNumber ≤ fabs (v2 - v1)) := by
  unfold vertexInterp
  refine ⟨fun h1 => ?_, fun h1 h2 => ?_, fun h1 h2 h3 => ?_, fun h1 h2 h3 => ?_⟩
  · rw [if_pos h1]
  · rw [if_neg (not_lt.mpr h1), if_pos h2]
  · rw [if_neg (not_lt.mpr h1), if_neg (not_lt.mpr h2), if_pos h3]
  · rw [if_neg (not_lt.mpr h1), if_neg (not_lt.mpr h2), if_neg (not_lt.mpr h3)]
    constructor
    · cases hself : (n1 + ((isoLevel - v1) / (v2 - v1)) • (n2 - n1)).normalizeOpt <;> simp [hself]
    · rw [← fabs_sub_comm]; exact h3

/-- C7 witness: the interpolating branch at a concrete non-degenerate
input. -/
theorem vertexInterp_position_spec_witness :
    (vertexInterp 0 ⟨0, 0, 0⟩ ⟨1, 0, 0⟩ (-1) 1 Vec3.upVector Vec3.upVector).position =
      (⟨0, 0, 0⟩ : Vec3) + (((0 : ℚ) - (-1)) / (1 - (-1))) • ((⟨1, 0, 0⟩ : Vec3) - ⟨0, 0, 0⟩) ∧
    kindaSmallNumber ≤ fabs ((1 : ℚ) - (-1)) :=
  (vertexInterp_position_spec 0 ⟨0, 0, 0⟩ ⟨1, 0, 0⟩ (-1) 1 Vec3.upVector Vec3.upVector).2.2.2
    (by norm_num [fabs, kindaSmallNumber]) (by norm_num [fabs, kindaSmallNumber])
    (by norm_num [fabs, kindaSmallNumber])

/-- C10: DigSphere called with an empty density array, a non-positive
stored size, or a nearly-zero stored scale returns immediately with the
chunk state (density, parameters and mesh) completely unchanged. -/
theorem digSphere_degenerate_noop (t : ComponentPlacement) (s : ChunkState)
    (worldPosition : Vec3) (radius strength : ℚ)
    (h : s.density = [] ∨ s.currentSize ≤ 0 ∨ isNearlyZero s.currentScale) :
    digSphere t s worldPosition radius strength = some s := by
  unfold digSphere
  rw [if_pos h]

/-- C10 witness: a chunk with an empty density array is untouched. -/
theorem digSphere_degenerate_noop_witness :
    digSphere identityPlacement ⟨0, 1, 0, [], emptyMesh⟩ ⟨3, 4, 5⟩ 250 (-20) =
      some ⟨0, 1, 0, [], emptyMesh⟩ :=
  digSphere_degenerate_noop identityPlacement ⟨0, 1, 0, [], emptyMesh⟩ ⟨3, 4, 5⟩ 250 (-20)
    (Or.inl rfl)

/-- C4: the code does not enforce the single-generation invariant.  From a
fresh world (25 chunks, the default 5 by 5 by 1 grid), OnConstruction with
no saved files starts a full-grid generation and leaves bIsGenerating set;
the BeginPlay step then finds a missing chunk file and calls
GenerateAllChunks again without consulting bIsGenerating, scheduling a
second full set of 25 tasks while the first 25 are still in flight -- the
request arriving in the Generating state is not rejected and two full-grid
passes overlap. -/
theorem beginPlay_starts_second_generation_pass :
    (onConstructionStep false ⟨false, 0, 25, 0⟩).isGenerating = true ∧
    (onConstructionStep false ⟨false, 0, 25, 0⟩).inFlight = 25 ∧
    (beginPlayStep true (onConstructionStep false ⟨false, 0, 25, 0⟩)).inFlight = 50 ∧
    beginPlayStep true (onConstructionStep false ⟨false, 0, 25, 0⟩) ≠
      onConstructionStep false ⟨false, 0, 25, 0⟩ := by
  refine ⟨rfl, rfl, rfl, ?_⟩
  intro h
  have h2 := congrArg GenState.inFlight h
  simp [beginPlayStep, onConstructionStep, generateAllChunks] at h2

theorem Vec3.add_def (a b : Vec3) : a + b = ⟨a.x + b.x, a.y + b.y, a.z + b.z⟩ := rfl

theorem Vec3.sub_def (a b : Vec3) : a - b = ⟨a.x - b.x, a.y - b.y, a.z - b.z⟩ := rfl

theorem Vec3.smul_def (c : ℚ) (v : Vec3) : c • v = ⟨c * v.x, c * v.y, c * v.z⟩ := rfl

theorem clamp_bounds (x lo hi : ℤ) (h : lo ≤ hi) : lo ≤ clamp x lo hi ∧ clamp x lo hi ≤ hi := by
  unfold clamp; split_ifs <;> omega

theorem getIndex_bounds (s x y z : ℤ) (hs : 0 < s)
    (hx0 : 0 ≤ x) (hx : x ≤ s - 1) (hy0 : 0 ≤ y) (hy : y ≤ s - 1)
    (hz0 : 0 ≤ z) (hz : z ≤ s - 1) :
    0 ≤ getIndex s x y z ∧ getIndex s x y z < s * s * s := by
  unfold getIndex
  have hss : (0:ℤ) ≤ s * s := mul_nonneg hs.le hs.le
  have h1 : y * s ≤ (s - 1) * s := mul_le_mul_of_nonneg_right hy hs.le
  have h2 : z * s * s ≤ (s - 1) * (s * s) := by
    have := mul_le_mul_of_nonneg_right hz hss
    calc z * s * s = z * (s * s) := by ring
      _ ≤ (s - 1) * (s * s) := this
  have h3 : (0:ℤ) ≤ y * s := mul_nonneg hy0 hs.le
  have h4 : (0:ℤ) ≤ z * s * s := by
    have := mul_nonneg hz0 hss
    calc (0:ℤ) ≤ z * (s * s) := this
      _ = z * s * s := by ring
  have key : (s - 1) + (s - 1) * s + (s - 1) * (s * s) = s * s * s - 1 := by ring
  constructor
  · linarith
  · linarith

theorem mem_gridCells (s : ℕ) (c : ℕ × ℕ × ℕ) (h : c ∈ gridCells s) :
    c.1 < s ∧ c.2.1 < s ∧ c.2.2 < s := by
  unfold gridCells at h
  simp only [List.mem_flatMap, List.mem_map, List.mem_range] at h
  obtain ⟨z, hz, y, hy, x, hx, rfl⟩ := h
  exact ⟨hx, hy, hz⟩

/-- C9: under the guard precondition 1 < size (and a density array of
length size^3, which the guard checks), every density-array index read by
RebuildMeshFromCurrentDensity -- the six clamped central-difference
samples of each of the size^3 voxels and the eight corner fetches of each
of the (size - 1)^3 unit cubes -- lies in the interval [0, size^3). -/
theorem rebuild_density_reads_in_bounds (size : ℤ) (h : 1 < size) :
    ∀ i ∈ gradientReadIndices size ++ cubeCornerReadIndices size,
      0 ≤ i ∧ i < size * size * size := by
  have hs : 0 < size := by omega
  have hle : (0:ℤ) ≤ size - 1 := by omega
  intro i hi
  rcases List.mem_append.mp hi with hgrad | hcube
  · unfold gradientReadIndices at hgrad
    rw [List.mem_flatMap] at hgrad
    obtain ⟨cell, hcell, hmem⟩ := hgrad
    have hb := mem_gridCells size.toNat cell hcell
    simp only [List.mem_cons, List.mem_singleton, List.not_mem_nil, or_false] at hmem
    rcases hmem with rfl | rfl | rfl | rfl | rfl | rfl <;>
      exact getIndex_bounds size _ _ _ hs
        (clamp_bounds _ 0 (size - 1) hle).1 (clamp_bounds _ 0 (size - 1) hle).2
        (clamp_bounds _ 0 (size - 1) hle).1 (clamp_bounds _ 0 (size - 1) hle).2
        (clamp_bounds _ 0 (size - 1) hle).1 (clamp_bounds _ 0 (size - 1) hle).2
  · unfold cubeCornerReadIndices cubeCells at hcube
    rw [List.mem_flatMap] at hcube
    obtain ⟨cube, hcell, hmem⟩ := hcube
    have hb := mem_gridCells (size - 1).toNat cube hcell
    have hxc : (cube.1 : ℤ) ≤ size - 2 := by omega
    have hyc : (cube.2.1 : ℤ) ≤ size - 2 := by omega
    have hzc : (cube.2.2 : ℤ) ≤ size - 2 := by omega
    rw [List.mem_map] at hmem
    obtain ⟨o, ho, rfl⟩ := hmem
    have hox : (0 ≤ o.1 ∧ o.1 ≤ 1) ∧ (0 ≤ o.2.1 ∧ o.2.1 ≤ 1) ∧ (0 ≤ o.2.2 ∧ o.2.2 ≤ 1) := by
      simp only [cornerOffsets, List.mem_cons, List.not_mem_nil, or_false] at ho
      rcases ho with rfl | rfl | rfl | rfl | rfl | rfl | rfl | rfl <;> norm_num
    exact getIndex_bounds size _ _ _ hs
      (by omega) (by omega) (by omega) (by omega) (by omega) (by omega)

/-- C9 witness: the bound at the concrete grid size 3. -/
theorem rebuild_density_reads_in_bounds_witness :
    (1:ℤ) < 3 ∧ ∀ i ∈ gradientReadIndices 3 ++ cubeCornerReadIndices 3, 0 ≤ i ∧ i < 3 * 3 * 3 :=
  ⟨by norm_num, rebuild_density_reads_in_bounds 3 (by norm_num)⟩

/-- C6 counterexample: BuildDensityField does not implement the spec
formula (worldZ / scale - heightBias) + noise * strength.  With the chunk
origin at height 7, grid cell (0,0,0), scale 1 and the zero noise source,
the code stores (z_grid - heightBias) = 0 while the spec formula gives
worldZ / scale - heightBias = 7. -/
theorem buildDensityField_differs_from_spec_formula :
    (buildDensityField (fun _ => 0) ⟨0, 0, 7⟩ 1 1 1 0 0 ⟨0, 1, 0, [], emptyMesh⟩).density.getD 0 0 ≠
      specPopulateValue (fun _ => 0) ⟨0, 0, 7⟩ 1 1 0 0 0 0 0 := by
  norm_num [buildDensityField, specPopulateValue, gridList, List.range_succ,
    Vec3.add_def, Vec3.smul_def]

/-- C6 (amended): BuildDensityField writes to every grid cell (x,y,z) the
value (z - heightBias) + noise3D(worldPos * noiseFrequency) * noiseStrength
where worldPos = origin + (x,y,z) * scale and z is the grid coordinate --
that is, the spec formula with worldZ / scale replaced by the grid z, or
equivalently (worldZ - originZ) / scale; the two agree exactly when the
chunk origin has height zero (and the scale is nonzero). -/
theorem buildDensityField_cell_value (noise : Vec3 → ℚ) (origin : Vec3) (size : ℤ)
    (scale noiseScale heightBias noiseStrength : ℚ) (s : ChunkState) (x y z : ℕ)
    (hx : x < size.toNat) (hy : y < size.toNat) (hz : z < size.toNat) :
    (buildDensityField noise origin size scale noiseScale heightBias noiseStrength s).density.getD
        (x + y * size.toNat + z * (size.toNat * size.toNat)) 0 =
      ((z : ℚ) - heightBias) +
        noise (noiseScale • (origin + (⟨(x : ℚ) * scale, (y : ℚ) * scale, (z : ℚ) * scale⟩ : Vec3))) * noiseStrength ∧
    (origin.z = 0 → scale ≠ 0 →
      (buildDensityField noise origin size scale noiseScale heightBias noiseStrength s).density.getD
          (x + y * size.toNat + z * (size.toNat * size.toNat)) 0 =
        specPopulateValue noise origin scale noiseScale heightBias noiseStrength x y z) := by
  have hcell :
      (buildDensityField noise origin size scale noiseScale heightBias noiseStrength s).density.getD
        (x + y * size.toNat + z * (size.toNat * size.toNat)) 0 =
      ((z : ℚ) - heightBias) +
        noise (noiseScale • (origin + (⟨(x : ℚ) * scale, (y : ℚ) * scale, (z : ℚ) * scale⟩ : Vec3))) * noiseStrength := by
    unfold buildDensityField
    exact getD_gridList size.toNat _ 0 x y z hx hy hz
  refine ⟨hcell, fun hz0 hsc => ?_⟩
  rw [hcell]
  unfold specPopulateValue
  simp only [Vec3.add_def]
  rw [hz0]
  field_simp

/-- C6 amended witness: cell (1,0,1) of a 2-cube grid with origin height
zero, scale 1, heightBias 10 and the zero noise source stores 1 - 10. -/
theorem buildDensityField_cell_value_witness :
    (buildDensityField (fun _ => 0) ⟨0, 0, 0⟩ 2 1 1 10 0 ⟨0, 1, 0, [], emptyMesh⟩).density.getD 5 0 =
      (1 : ℚ) - 10 := by
  have h := (buildDensityField_cell_value (fun _ => 0) ⟨0, 0, 0⟩ 2 1 1 10 0
    ⟨0, 1, 0, [], emptyMesh⟩ 1 0 1 (by norm_num) (by norm_num) (by norm_num)).1
  norm_num [show ((2:ℤ)).toNat = 2 from rfl] at h
  norm_num
  exact h

/-- RebuildMeshFromCurrentDensity changes only the mesh field: size, scale,
iso-level and density come through untouched. -/
theorem rebuild_changes_only_mesh (s : ChunkState) :
    rebuildMeshFromCurrentDensity s = { s with mesh := (rebuildMeshFromCurrentDensity s).mesh } := by
  unfold rebuildMeshFromCurrentDensity
  split_ifs <;> rfl

/-- The DigSphere per-voxel update with zero strength and a nonzero voxel
radius leaves the density array unchanged (at radius 0 the write is the
NaN path, none). -/
theorem digVoxel_strength_zero (size : ℤ) (center : Vec3) (r : ℤ) (d : List ℚ) (v : ℤ × ℤ × ℤ)
    (hr : r ≠ 0) :
    digVoxel size center r 0 d v = some d := by
  unfold digVoxel
  split_ifs with h1
  · rfl
  · simp only [zero_mul, add_zero, set_getD_self, ite_self]

/-- The DigSphere triple loop with zero strength and a nonzero voxel
radius is the identity on the density array. -/
theorem digLoop_strength_zero (size xc yc zc : ℤ) (center : Vec3) (r : ℤ) (d : List ℚ)
    (hr : r ≠ 0) :
    digLoop size xc yc zc center r 0 d = some d := by
  unfold digLoop
  exact foldl_fixed_point _ _ _ (fun v _ => digVoxel_strength_zero size center r d v hr)

/-- C8 (amended): DigSphere with strength 0 on a consistent chunk (density
of length size^3, mesh in sync with the current density) is a complete
no-op whenever the radius is strictly positive and the stored scale is
positive (so the voxel radius ceil(radius / uniformScale / scale) is at
least 1 and the falloff division is well defined): every density sample is
unchanged and the mesh rebuilt at the end of the call is identical to the
mesh before the call.  At radius 0 the claim fails: the source divides
0.0f by 0.0f and writes NaN (see the counterexample). -/
theorem digSphere_strength_zero (t : ComponentPlacement) (s : ChunkState)
    (worldPosition : Vec3) (radius : ℚ)
    (hlen : (s.density.length : ℤ) = s.currentSize * s.currentSize * s.currentSize)
    (hrad : 0 < radius) (hpos : 0 < s.currentScale)
    (hmesh : s.mesh = (rebuildMeshFromCurrentDensity s).mesh) :
    digSphere t s worldPosition radius 0 = some s := by
  unfold digSphere
  split_ifs with hg
  · rfl
  · have huni : 0 < fmax t.scale3D.getAbsMax kindaSmallNumber := by
      unfold fmax kindaSmallNumber
      rcases le_or_lt (1/10000 : ℚ) t.scale3D.getAbsMax with h | h
      · rw [if_pos h]; linarith
      · rw [if_neg (not_le.mpr h)]; norm_num
    have hr : ceilToInt (radius / fmax t.scale3D.getAbsMax kindaSmallNumber / s.currentScale) ≠ 0 := by
      have hx : 0 < radius / fmax t.scale3D.getAbsMax kindaSmallNumber / s.currentScale :=
        div_pos (div_pos hrad huni) hpos
      unfold ceilToInt
      have hc := Int.ceil_pos.mpr hx
      omega
    simp only [digLoop_strength_zero _ _ _ _ _ _ _ hr, Option.map_some']
    have heta : { s with density := s.density } = s := rfl
    rw [heta, rebuild_changes_only_mesh s, ← hmesh]

/-- C8 witness: a consistent one-voxel chunk is untouched by a
zero-strength dig of radius 3. -/
theorem digSphere_strength_zero_witness :
    digSphere identityPlacement ⟨1, 1, 0, [5], emptyMesh⟩ ⟨7, 0, 0⟩ 3 0 =
      some ⟨1, 1, 0, [5], emptyMesh⟩ :=
  digSphere_strength_zero identityPlacement ⟨1, 1, 0, [5], emptyMesh⟩ ⟨7, 0, 0⟩ 3
    (by norm_num) (by norm_num) (by norm_num) (by norm_num [rebuildMeshFromCurrentDensity])

/-- C8 counterexample: DigSphere with strength 0 is not a no-op for every
center and radius.  At radius 0 the voxel radius is ceil(0) = 0; with the
dig center exactly on the in-bounds voxel (0,0,0) of a consistent
one-voxel chunk the loop guard Dist <= RadiusVoxels passes with Dist = 0
and the source computes Strength * (1.0f - 0.0f / 0.0f) = 0 * NaN = NaN
and adds it to the density sample: the sample becomes NaN (the density
leaves the rational domain, none) and the rebuilt mesh changes, instead of
the state being left untouched. -/
theorem digSphere_strength_zero_radius_zero_nan :
    digSphere identityPlacement ⟨1, 1, 0, [5], emptyMesh⟩ Vec3.zero 0 0 = none := by
  norm_num [digSphere, identityPlacement, inverseTransformPosition, digLoop, digVoxel,
    intRange, Vec3.divComp, Vec3.divScalar, Vec3.sub_def, Vec3.zero, roundToInt,
    ceilToInt, fmax, fabs, Vec3.getAbsMax, kindaSmallNumber, isNearlyZero, smallNumber,
    Vec3.dist, Vec3.distSquared, Vec3.sizeSquared, ratSqrt_zero, Vec3.sub,
    Int.floor_eq_iff, Int.toNat_one, List.range_succ, List.range_zero,
    List.flatMap_cons, List.flatMap_nil, List.foldl_cons, List.foldl_nil]

/-- C1 counterexample: LoadDensityFromJSON does not validate the declared
size against the density length before committing.  Loading a parsed
record with Size 3 but only 3 density samples into a consistent chunk of
stored size 2 overwrites the stored size (2 becomes 3), so the failed load
is not free of partial state updates. -/
theorem loadDensity_mismatch_updates_state :
    (loadDensityFromJSON ⟨2, 1, 0, [0, 0, 0, 0, 0, 0, 0, 0], emptyMesh⟩
        (some ⟨3, 1, 0, some [0, 0, 0]⟩)).currentSize ≠
      (⟨2, 1, 0, [0, 0, 0, 0, 0, 0, 0, 0], emptyMesh⟩ : ChunkState).currentSize := by
  norm_num [loadDensityFromJSON, rebuildMeshFromCurrentDensity]

/-- C1 (amended): on a parsed record whose density array length does not
match the declared size cubed, LoadDensityFromJSON still overwrites the
stored size, scale, iso-level and density array with the record values and
invokes RebuildMeshFromCurrentDensity unconditionally; the guard inside
the rebuild then detects the inconsistency and clears the mesh (the load
is aborted without a crash, but it is a partial update, not a rollback). -/
theorem loadDensity_mismatch_partial_update (s : ChunkState) (r : TerrainRecord) (arr : List ℚ)
    (harr : r.density = some arr)
    (hmis : (arr.length : ℤ) ≠ r.size * r.size * r.size) :
    loadDensityFromJSON s (some r) = ⟨r.size, r.scale, r.isoLevel, arr, emptyMesh⟩ := by
  unfold loadDensityFromJSON
  simp only [harr]
  unfold rebuildMeshFromCurrentDensity
  rw [if_pos (Or.inr hmis)]

/-- C1 amended witness: the size-3 record with 3 samples loads into the
record values with a cleared mesh. -/
theorem loadDensity_mismatch_partial_update_witness :
    loadDensityFromJSON ⟨2, 1, 0, [0, 0, 0, 0, 0, 0, 0, 0], emptyMesh⟩
        (some ⟨3, 1, 0, some [0, 0, 0]⟩) =
      ⟨3, 1, 0, [0, 0, 0], emptyMesh⟩ :=
  loadDensity_mismatch_partial_update ⟨2, 1, 0, [0, 0, 0, 0, 0, 0, 0, 0], emptyMesh⟩
    ⟨3, 1, 0, some [0, 0, 0]⟩ [0, 0, 0] rfl (by norm_num)

theorem roundToInt_intCast (a : ℤ) : roundToInt ((a : ℤ) : ℚ) = a := by
  unfold roundToInt
  rw [Int.floor_eq_iff]
  constructor
  · linarith
  · linarith

theorem Vec3.divComp_one (v : Vec3) : Vec3.divComp v ⟨1, 1, 1⟩ = v := by
  cases v; simp [Vec3.divComp]

/-- The DigAt per-voxel body is the DigSphere per-voxel body with the
fractional center replaced by the rounded integer center. -/
theorem digAtVoxel_eq_digVoxel (size xc yc zc r : ℤ) (st : ℚ) :
    digAtVoxel size xc yc zc r st = digVoxel size ⟨(xc : ℚ), (yc : ℚ), (zc : ℚ)⟩ r st := by
  funext d v
  rfl

/-- C5 (amended): the duplicated per-voxel loop of DigAt matches DigSphere
only up to the dig center: DigAt measures the radial falloff from the
rounded integer voxel center while DigSphere measures it from the exact
fractional local position.  Consequently, for a chunk whose stored
parameters agree with the world parameters (under the identity component
scale): a chunk with empty density is untouched, a chunk whose box does
not intersect the dig sphere is untouched, and whenever the local voxel
position of the dig center is exactly integral the two updates coincide,
the affected chunk ending in exactly the state DigSphere would produce
(density updated once and mesh rebuilt once) -- including the NaN outcome
at a radius that rounds to zero voxels, on which the two paths agree. -/
theorem digAt_chunk_spec (chunkSize : ℤ) (terrainScale : ℚ) (ch : WorldChunk)
    (wp : Vec3) (radius strength : ℚ) (a b c : ℤ)
    (hlocal : (wp - ch.location).divScalar terrainScale = ⟨(a : ℚ), (b : ℚ), (c : ℚ)⟩)
    (hsize : ch.state.currentSize = chunkSize)
    (hscale : ch.state.currentScale = terrainScale) :
    (ch.state.density = [] → digAt chunkSize terrainScale [ch] wp radius strength = some [ch]) ∧
    (¬ sphereAABBIntersection wp radius ch.location
        (ch.location + ⟨((chunkSize - 1 : ℤ) : ℚ) * terrainScale, ((chunkSize - 1 : ℤ) : ℚ) * terrainScale,
          ((chunkSize - 1 : ℤ) : ℚ) * terrainScale⟩) →
      digAt chunkSize terrainScale [ch] wp radius strength = some [ch]) ∧
    (ch.state.density ≠ [] → 0 < chunkSize → ¬ isNearlyZero terrainScale →
      sphereAABBIntersection wp radius ch.location
        (ch.location + ⟨((chunkSize - 1 : ℤ) : ℚ) * terrainScale, ((chunkSize - 1 : ℤ) : ℚ) * terrainScale,
          ((chunkSize - 1 : ℤ) : ℚ) * terrainScale⟩) →
      digAt chunkSize terrainScale [ch] wp radius strength =
        (digSphere ⟨ch.location, ⟨1, 1, 1⟩⟩ ch.state wp radius strength).map
          fun st => [{ ch with state := st }]) := by
  refine ⟨fun hempty => ?_, fun hmiss => ?_, fun hne hpos hsc hint => ?_⟩
  · unfold digAt
    simp [hempty]
  · unfold digAt
    by_cases hempty : ch.state.density = []
    · simp [hempty]
    · simp only [List.foldr_cons, List.foldr_nil, if_neg hempty, if_neg hmiss]
      rfl
  · have huni : fmax (Vec3.getAbsMax ⟨1, 1, 1⟩) kindaSmallNumber = 1 := by
      norm_num [Vec3.getAbsMax, fmax, fabs, kindaSmallNumber]
    have hds : digSphere ⟨ch.location, ⟨1, 1, 1⟩⟩ ch.state wp radius strength =
        (digAtChunkDensity chunkSize terrainScale ch.location wp radius strength ch.state.density).map
          fun d1 => rebuildMeshFromCurrentDensity { ch.state with density := d1 } := by
      unfold digSphere
      rw [if_neg (by
        push_neg
        refine ⟨hne, by omega, ?_⟩
        rw [hscale]
        exact hsc)]
      simp only [inverseTransformPosition, digAtChunkDensity, digLoop, Vec3.divComp_one,
        hscale, hlocal, roundToInt_intCast, huni, div_one, hsize, digAtVoxel_eq_digVoxel]
    unfold digAt
    simp only [List.foldr_cons, List.foldr_nil, if_neg hne, if_pos hint, hds]
    rcases hacd : digAtChunkDensity chunkSize terrainScale ch.location wp radius strength
        ch.state.density with _ | d1 <;> simp [hacd]

/-- C5 amended witness: with the dig center exactly on the voxel grid the
two code paths produce identical chunk states. -/
theorem digAt_chunk_spec_witness :
    digAt 1 1 [⟨(0, 0, 0), Vec3.zero, false, ⟨1, 1, 0, [0], emptyMesh⟩⟩] ⟨0, 0, 0⟩ 1 1 =
      (digSphere ⟨Vec3.zero, ⟨1, 1, 1⟩⟩ ⟨1, 1, 0, [0], emptyMesh⟩ ⟨0, 0, 0⟩ 1 1).map
        fun st => [{ (⟨(0, 0, 0), Vec3.zero, false, ⟨1, 1, 0, [0], emptyMesh⟩⟩ : WorldChunk) with
          state := st }] :=
  (digAt_chunk_spec 1 1 ⟨(0, 0, 0), Vec3.zero, false, ⟨1, 1, 0, [0], emptyMesh⟩⟩ ⟨0, 0, 0⟩ 1 1 0 0 0
    (by norm_num [Vec3.sub_def, Vec3.divScalar, Vec3.zero]) rfl rfl).2.2
    (by norm_num) (by norm_num) (by norm_num [isNearlyZero, fabs, smallNumber])
    (by norm_num [sphereAABBIntersection, axisDistSq, Vec3.add_def, Vec3.zero])

theorem Vec3.distSquared_self (a : Vec3) : Vec3.distSquared a a = 0 := by
  cases a
  simp [Vec3.distSquared, Vec3.sizeSquared, Vec3.sub]

theorem Vec3.dist_self (a : Vec3) : Vec3.dist a a = 0 := by
  unfold Vec3.dist
  rw [Vec3.distSquared_self, ratSqrt_zero]

/-- C3 (amended): the streaming hysteresis is keyed to the quantized chunk
center, not to the raw distance moved.  When the two observer positions
fall in the same chunk (equal floored chunk coordinates on both axes) and
the chunk world width is positive, the second UpdateStreamedChunks call
changes nothing: it neither creates nor destroys a chunk and leaves the
recorded center untouched. -/
theorem updateStreaming_same_coords_noop (noise : Vec3 → ℚ)
    (savedRecord : ℤ × ℤ × ℤ → Option TerrainRecord) (w : WorldState) (p1 p2 : Vec3)
    (hw : 0 < chunkWorldWidth w)
    (hx : floorToInt (p1.x / chunkWorldWidth w) = floorToInt (p2.x / chunkWorldWidth w))
    (hy : floorToInt (p1.y / chunkWorldWidth w) = floorToInt (p2.y / chunkWorldWidth w)) :
    updateStreamedChunks noise savedRecord (updateStreamedChunks noise savedRecord w p1) p2 =
      updateStreamedChunks noise savedRecord w p1 := by
  have hcoords : playerChunkCoordsOf w p2 = playerChunkCoordsOf w p1 := by
    unfold playerChunkCoordsOf
    rw [hx, hy]
  have hcent : playerChunkCenterOf w p2 = playerChunkCenterOf w p1 := by
    unfold playerChunkCenterOf
    rw [hcoords]
  by_cases h1 : Vec3.dist (playerChunkCenterOf w p1) w.lastPlayerChunkCenter < chunkWorldWidth w * (1/2)
  · have hskip : updateStreamedChunks noise savedRecord w p1 = w := by
      unfold updateStreamedChunks
      rw [if_pos h1]
    rw [hskip]
    unfold updateStreamedChunks
    rw [hcent, if_pos h1]
  · have hproceed : updateStreamedChunks noise savedRecord w p1 =
        { w with
          chunks := streamedChunksOf noise savedRecord w p1
          lastPlayerChunkCenter := playerChunkCenterOf w p1 } := by
      unfold updateStreamedChunks
      rw [if_neg h1]
    rw [hproceed]
    unfold updateStreamedChunks
    have hsame : playerChunkCoordsOf
        { w with
          chunks := streamedChunksOf noise savedRecord w p1
          lastPlayerChunkCenter := playerChunkCenterOf w p1 } p2 = playerChunkCoordsOf w p2 := rfl
    have hsame2 : playerChunkCenterOf
        { w with
          chunks := streamedChunksOf noise savedRecord w p1
          lastPlayerChunkCenter := playerChunkCenterOf w p1 } p2 = playerChunkCenterOf w p2 := rfl
    rw [hsame2, hcent]
    have hzero : Vec3.dist (playerChunkCenterOf w p1) (playerChunkCenterOf w p1) = 0 :=
      Vec3.dist_self _
    have hcw : chunkWorldWidth
        { w with
          chunks := streamedChunksOf noise savedRecord w p1
          lastPlayerChunkCenter := playerChunkCenterOf w p1 } = chunkWorldWidth w := rfl
    rw [if_pos (by rw [hcw, hzero]; positivity)]

/-- C3 amended witness: two positions inside chunk 0 of a width-1 chunk
grid; the second call is a no-op. -/
theorem updateStreaming_same_coords_noop_witness :
    updateStreamedChunks (fun _ => 0) (fun _ => none)
        (updateStreamedChunks (fun _ => 0) (fun _ => none)
          ⟨[], Vec3.zero, 2, 1, 1, 10, 0, 0⟩ ⟨1/10, 0, 0⟩) ⟨2/10, 0, 0⟩ =
      updateStreamedChunks (fun _ => 0) (fun _ => none)
        ⟨[], Vec3.zero, 2, 1, 1, 10, 0, 0⟩ ⟨1/10, 0, 0⟩ :=
  updateStreaming_same_coords_noop (fun _ => 0) (fun _ => none)
    ⟨[], Vec3.zero, 2, 1, 1, 10, 0, 0⟩ ⟨1/10, 0, 0⟩ ⟨2/10, 0, 0⟩
    (by norm_num [chunkWorldWidth])
    (by norm_num [chunkWorldWidth, floorToInt, Int.floor_eq_iff])
    (by norm_num [chunkWorldWidth, floorToInt])

set_option maxHeartbeats 1000000 in
/-- C5 counterexample: the duplicated per-voxel loop of DigAt is not the
same function of the density buffer as DigSphere.  For a one-voxel chunk
at the origin with unit scales and a dig of radius 1 and strength 1 at
world position (2/5, 0, 0), DigAt measures the falloff from the rounded
center (0,0,0) and adds 1, while DigSphere measures it from the exact
local position (2/5, 0, 0) and adds 3/5. -/
theorem digAt_rounds_center_away_from_digSphere :
    (digAt 1 1 [⟨(0, 0, 0), Vec3.zero, false, ⟨1, 1, 0, [0], emptyMesh⟩⟩] ⟨2/5, 0, 0⟩ 1 1).map
        (List.map fun ch => ch.state.density) ≠
      (digSphere identityPlacement ⟨1, 1, 0, [0], emptyMesh⟩ ⟨2/5, 0, 0⟩ 1 1).map
        (fun st => [st.density]) := by
  have ht3 : ((3:ℤ)).toNat = 3 := rfl
  have hr3 : List.range 3 = [0, 1, 2] := rfl
  have hs1 : ratSqrt (4/25) = 2/5 := by
    have h : (4/25 : ℚ) = (2/5) * (2/5) := by norm_num
    rw [h, ratSqrt_sq] ; norm_num
  norm_num [ht3, hr3, digAt, digAtChunkDensity, digAtVoxel, digSphere, digLoop, digVoxel,
    identityPlacement, inverseTransformPosition, intRange, sphereAABBIntersection, axisDistSq,
    Vec3.add_def, Vec3.sub_def, Vec3.divComp, Vec3.divScalar, Vec3.dist, Vec3.distSquared,
    Vec3.sizeSquared, Vec3.sub, Vec3.zero, Vec3.getAbsMax, fmax, fabs,
    roundToInt, ceilToInt, getIndex, isNearlyZero, smallNumber, kindaSmallNumber,
    rebuildMeshFromCurrentDensity, emptyMesh, hs1, ratSqrt_zero,
    Int.floor_eq_iff, Int.ceil_eq_iff, List.range_succ, Int.toNat_ofNat,
    List.foldl_cons, List.foldl_nil, List.flatMap_cons, List.flatMap_nil,
    List.foldr_cons, List.foldr_nil]

set_option maxHeartbeats 1000000 in
/-- C3 counterexample: the hysteresis does not key on the distance moved.
Starting from an empty chunk list with chunk width 1, the observer at
(9/10, 0, 0) leaves the world untouched (first call is a no-op), then
moves by 1/5 -- less than half a chunk width -- to (11/10, 0, 0), crossing
the chunk boundary; the second call is not a no-op and creates a chunk. -/
theorem updateStreaming_small_move_creates_chunk :
    Vec3.dist ⟨11/10, 0, 0⟩ ⟨9/10, 0, 0⟩ < (1 : ℚ) * (1/2) ∧
    (updateStreamedChunks (fun _ => 0) (fun _ => none)
        ⟨[], Vec3.zero, 2, 1, 1, 10, 0, 0⟩ ⟨9/10, 0, 0⟩).chunks.length = 0 ∧
    (updateStreamedChunks (fun _ => 0) (fun _ => none)
        (updateStreamedChunks (fun _ => 0) (fun _ => none)
          ⟨[], Vec3.zero, 2, 1, 1, 10, 0, 0⟩ ⟨9/10, 0, 0⟩) ⟨11/10, 0, 0⟩).chunks.length = 1 := by
  have hs5 : ratSqrt (1/25) = 1/5 := by
    have h : (1/25 : ℚ) = (1/5) * (1/5) := by norm_num
    rw [h, ratSqrt_sq] ; norm_num
  have hs1 : ratSqrt 1 = 1 := by
    have h := ratSqrt_sq 1 (by norm_num)
    simpa using h
  have hf0 : floorToInt ((9:ℚ)/10) = 0 := by norm_num [floorToInt, Int.floor_eq_iff]
  have hf1 : floorToInt ((11:ℚ)/10) = 1 := by norm_num [floorToInt, Int.floor_eq_iff]
  have hfz : floorToInt (0:ℚ) = 0 := by norm_num [floorToInt]
  have hskip : updateStreamedChunks (fun _ => (0:ℚ)) (fun _ => none)
      ⟨[], Vec3.zero, 2, 1, 1, 10, 0, 0⟩ ⟨9/10, 0, 0⟩ =
      ⟨[], Vec3.zero, 2, 1, 1, 10, 0, 0⟩ := by
    norm_num [updateStreamedChunks, playerChunkCenterOf, playerChunkCoordsOf, chunkWorldWidth,
      hf0, hfz, Vec3.dist_self, Vec3.zero]
  refine ⟨?_, ?_, ?_⟩
  · norm_num [Vec3.dist, Vec3.distSquared, Vec3.sizeSquared, Vec3.sub, hs5]
  · rw [hskip]
    rfl
  · rw [hskip]
    norm_num [updateStreamedChunks, playerChunkCenterOf, playerChunkCoordsOf, chunkWorldWidth,
      desiredChunksOf, streamedChunksOf, intRange, hf1, hfz, hs1, Vec3.zero,
      Vec3.dist, Vec3.distSquared, Vec3.sizeSquared, Vec3.sub,
      List.range_succ, List.foldl_cons, List.foldl_nil, neg_zero,
      show ((1:ℤ)).toNat = 1 from rfl, List.filter]

theorem c2_cubeIndex : cubeIndexOf c2Density 3 0 (0, 0, 0) = 64 := by
  norm_num [cubeIndexOf, cubeCornerVal, cornerOffsets, c2Density, getIndex, List.getD]
  simp
  norm_num

set_option maxRecDepth 8000 in
theorem c2_he64 : edgeTable.getD 64 0 = 1120 := by decide

set_option maxRecDepth 8000 in
theorem c2_ht64 : triTable.getD 64 [] =
    [10, 6, 5, -1, -1, -1, -1, -1, -1, -1, -1, -1, -1, -1, -1, -1] := by decide

theorem c2_bit10 : edgeTable.getD (cubeIndexOf c2Density 3 0 (0, 0, 0)) 0 / 2 ^ 10 % 2 = 1 := by
  rw [c2_cubeIndex, c2_he64]
  decide

theorem c2_bit6 : edgeTable.getD (cubeIndexOf c2Density 3 0 (0, 0, 0)) 0 / 2 ^ 6 % 2 = 1 := by
  rw [c2_cubeIndex, c2_he64]
  decide

theorem c2_bit5 : edgeTable.getD (cubeIndexOf c2Density 3 0 (0, 0, 0)) 0 / 2 ^ 5 % 2 = 1 := by
  rw [c2_cubeIndex, c2_he64]
  decide

theorem c2_pos2 : cubeCornerPos 1 (0, 0, 0) 2 = ⟨1, 1, 0⟩ := by
  norm_num [cubeCornerPos, cornerOffsets, List.getD]

theorem c2_pos5 : cubeCornerPos 1 (0, 0, 0) 5 = ⟨1, 0, 1⟩ := by
  norm_num [cubeCornerPos, cornerOffsets, List.getD]

theorem c2_pos6 : cubeCornerPos 1 (0, 0, 0) 6 = ⟨1, 1, 1⟩ := by
  norm_num [cubeCornerPos, cornerOffsets, List.getD]

theorem c2_pos7 : cubeCornerPos 1 (0, 0, 0) 7 = ⟨0, 1, 1⟩ := by
  norm_num [cubeCornerPos, cornerOffsets, List.getD]

theorem c2_val2 : cubeCornerVal c2Density 3 (0, 0, 0) 2 = 1 := by
  norm_num [cubeCornerVal, cornerOffsets, c2Density, getIndex, List.getD]
  try simp
  try norm_num

theorem c2_val5 : cubeCornerVal c2Density 3 (0, 0, 0) 5 = 1 := by
  norm_num [cubeCornerVal, cornerOffsets, c2Density, getIndex, List.getD]
  try simp
  try norm_num

theorem c2_val6 : cubeCornerVal c2Density 3 (0, 0, 0) 6 = -1/100000 := by
  norm_num [cubeCornerVal, cornerOffsets, c2Density, getIndex, List.getD]
  try simp
  try norm_num

theorem c2_val7 : cubeCornerVal c2Density 3 (0, 0, 0) 7 = 1 := by
  norm_num [cubeCornerVal, cornerOffsets, c2Density, getIndex, List.getD]
  try simp
  try norm_num

theorem c2_ratSqrt_eval : ratSqrt ((10000200001 : ℚ) / 10000000000) = 100001 / 100000 := by
  have h := ratSqrt_sq ((100001 : ℚ) / 100000) (by norm_num)
  norm_num at h
  convert h using 2
  try norm_num

theorem c2_grad2 : cubeCornerGrad c2Gradients 3 (0, 0, 0) 2 = ⟨0, 0, -1⟩ := by
  norm_num [cubeCornerGrad, cornerOffsets, getIndex, List.getD]
  try simp [c2Gradients, Vec3.zero]
  norm_num [Vec3.getSafeNormal, Vec3.sizeSquared, smallNumber, Vec3.divScalar, Vec3.zero,
    c2_ratSqrt_eval]

theorem c2_grad5 : cubeCornerGrad c2Gradients 3 (0, 0, 0) 5 = ⟨0, -1, 0⟩ := by
  norm_num [cubeCornerGrad, cornerOffsets, getIndex, List.getD]
  try simp [c2Gradients, Vec3.zero]
  norm_num [Vec3.getSafeNormal, Vec3.sizeSquared, smallNumber, Vec3.divScalar, Vec3.zero,
    c2_ratSqrt_eval]

theorem c2_grad6 : cubeCornerGrad c2Gradients 3 (0, 0, 0) 6 = Vec3.zero := by
  norm_num [cubeCornerGrad, cornerOffsets, getIndex, List.getD]
  try simp [c2Gradients, Vec3.zero]
  try norm_num [Vec3.getSafeNormal, Vec3.sizeSquared, smallNumber, Vec3.zero]

theorem c2_grad7 : cubeCornerGrad c2Gradients 3 (0, 0, 0) 7 = ⟨-1, 0, 0⟩ := by
  norm_num [cubeCornerGrad, cornerOffsets, getIndex, List.getD]
  try simp [c2Gradients, Vec3.zero]
  norm_num [Vec3.getSafeNormal, Vec3.sizeSquared, smallNumber, Vec3.divScalar, Vec3.zero,
    c2_ratSqrt_eval]

theorem c2_vert10 : cubeVertList c2Density c2Gradients 3 1 0 (0, 0, 0) 10 =
    ⟨⟨1, 1, 1⟩, Vec3.zero⟩ := by
  simp only [cubeVertList, c2_bit10, if_true]
  norm_num [edgeCorners, List.getD]
  simp only [← Prod.mk_zero_zero]
  rw [c2_pos2, c2_pos6, c2_val2, c2_val6, c2_grad2, c2_grad6]
  norm_num [vertexInterp, fabs, kindaSmallNumber, Vec3.getSafeNormal, Vec3.sizeSquared,
    smallNumber, Vec3.zero]

theorem c2_vert6 : cubeVertList c2Density c2Gradients 3 1 0 (0, 0, 0) 6 =
    ⟨⟨1, 1, 1⟩, Vec3.zero⟩ := by
  simp only [cubeVertList, c2_bit6, if_true]
  norm_num [edgeCorners, List.getD]
  simp only [← Prod.mk_zero_zero]
  rw [c2_pos6, c2_pos7, c2_val6, c2_val7, c2_grad6, c2_grad7]
  norm_num [vertexInterp, fabs, kindaSmallNumber, Vec3.getSafeNormal, Vec3.sizeSquared,
    smallNumber, Vec3.zero]

theorem c2_vert5 : cubeVertList c2Density c2Gradients 3 1 0 (0, 0, 0) 5 =
    ⟨⟨1, 1, 1⟩, Vec3.zero⟩ := by
  simp only [cubeVertList, c2_bit5, if_true]
  norm_num [edgeCorners, List.getD]
  simp only [← Prod.mk_zero_zero]
  rw [c2_pos5, c2_pos6, c2_val5, c2_val6, c2_grad5, c2_grad6]
  norm_num [vertexInterp, fabs, kindaSmallNumber, Vec3.getSafeNormal, Vec3.sizeSquared,
    smallNumber, Vec3.zero]

theorem c2_processCube : processCube c2Density c2Gradients 3 1 0 emptyMesh (0, 0, 0) =
    ⟨[⟨1, 1, 1⟩, ⟨1, 1, 1⟩, ⟨1, 1, 1⟩], [0, 1, 2], [Vec3.zero, Vec3.zero, Vec3.zero]⟩ := by
  simp only [processCube, c2_cubeIndex, c2_he64, c2_ht64]
  norm_num [triTriples]
  try simp only [List.foldl]
  have h10 : (10 : ℤ).toNat = 10 := rfl
  have h6 : (6 : ℤ).toNat = 6 := rfl
  have h5 : (5 : ℤ).toNat = 5 := rfl
  try simp only [h10, h6, h5]
  try simp only [← Prod.mk_zero_zero]
  rw [c2_vert10, c2_vert6, c2_vert5]
  norm_num [emitTriangle, emptyMesh, addNormal, Vec3.normalizeOpt, Vec3.cross,
    Vec3.getSafeNormal, Vec3.sizeSquared, Vec3.zero, smallNumber, Vec3.sub_def]

set_option maxHeartbeats 4000000 in
theorem c2_gradients_eval : computeGradients c2Density 3 1 = c2Gradients := by
  norm_num [computeGradients, c2Density, c2Gradients, gridList, sampleDensity, getIndex, clamp,
    isNearlyZero, fabs, smallNumber, Vec3.zero, List.range_succ,
    show ((3:ℤ)).toNat = 3 from rfl, List.flatMap_cons, List.flatMap_nil, List.getD]
  try simp
  try norm_num

theorem c2_rebuild_step : rebuildMeshFromCurrentDensity c2State =
    { c2State with mesh := (cubeCells 2).foldl (processCube c2Density (computeGradients c2Density 3 1) 3 1 0) emptyMesh } := by
  unfold rebuildMeshFromCurrentDensity
  rw [if_neg (by norm_num [c2State, c2Density])]
  rfl

theorem foldl_normals_prefix {α : Type} (l : List α) (f : Mesh → α → Mesh)
    (hf : ∀ m a, ∃ t, (f m a).normals = m.normals ++ t) (m : Mesh) :
    ∃ t, (l.foldl f m).normals = m.normals ++ t := by
  induction l generalizing m with
  | nil => exact ⟨[], by simp⟩
  | cons a l ih =>
    obtain ⟨t1, ht1⟩ := hf m a
    obtain ⟨t2, ht2⟩ := ih (f m a)
    exact ⟨t1 ++ t2, by simp [List.foldl, ht2, ht1]⟩

theorem processCube_normals_prefix (density : List ℚ) (gradients : List Vec3) (size : ℤ)
    (scale isoLevel : ℚ) (m : Mesh) (cube : ℕ × ℕ × ℕ) :
    ∃ t, (processCube density gradients size scale isoLevel m cube).normals = m.normals ++ t := by
  unfold processCube
  exact foldl_normals_prefix _ _ (fun m2 a => ⟨_, rfl⟩) m

theorem mem_normals_foldl_processCube (density : List ℚ) (gradients : List Vec3) (size : ℤ)
    (scale isoLevel : ℚ) (l : List (ℕ × ℕ × ℕ)) (m : Mesh) (v : Vec3)
    (h : v ∈ m.normals) :
    v ∈ ((l.foldl (processCube density gradients size scale isoLevel) m).normals) := by
  induction l generalizing m with
  | nil => exact h
  | cons a l ih =>
    apply ih
    obtain ⟨t, ht⟩ := processCube_normals_prefix density gradients size scale isoLevel m a
    rw [ht]
    exact List.mem_append_left _ h

set_option maxRecDepth 4000 in
theorem c2_cubeCells : cubeCells 2 =
    (0, 0, 0) :: [(1, 0, 0), (0, 1, 0), (1, 1, 0), (0, 0, 1), (1, 0, 1), (0, 1, 1), (1, 1, 1)] := by
  decide


theorem c2_zero_mem : Vec3.zero ∈ (rebuildMeshFromCurrentDensity c2State).mesh.normals := by
  rw [c2_rebuild_step]
  show Vec3.zero ∈ ((cubeCells 2).foldl (processCube c2Density (computeGradients c2Density 3 1) 3 1 0) emptyMesh).normals
  rw [c2_gradients_eval, c2_cubeCells, List.foldl_cons]
  apply mem_normals_foldl_processCube
  rw [c2_processCube]
  simp [Vec3.zero]

/-- C2: counterexample. The spec promises that every per-vertex normal
emitted by RebuildMeshFromCurrentDensity is a finite unit-length vector.
On the concrete 3x3x3 density field c2Density the pass emits the zero
vector as a vertex normal: the interpolated vertices of case 64 all snap
to the center corner (whose gradient safe-normalizes to zero), the three
triangle vertices coincide, so the flat face-normal fallback is the safe
normal of a zero cross product, which is the zero vector, not a unit
vector. -/
theorem rebuild_mesh_emits_zero_normal :
    Vec3.zero ∈ (rebuildMeshFromCurrentDensity c2State).mesh.normals ∧
      Vec3.sizeSquared Vec3.zero ≠ 1 :=
  ⟨c2_zero_mem, by norm_num [Vec3.sizeSquared, Vec3.zero]⟩

/-- C2 (amended): when the candidate normal of an emitted vertex fails to
renormalize (squared size at most SMALL_NUMBER), the normal stored for
that vertex is the safe-normalized flat face normal of its triangle,
computed after triangle assembly — which is itself the zero vector for
degenerate triangles, so emitted normals are not always unit length. -/
theorem emitTriangle_normal_fallback (m : Mesh) (r0 r1 r2 : VertexInterpResult)
    (h : Vec3.sizeSquared r0.normal ≤ smallNumber) :
    (emitTriangle m r0 r1 r2).normals.getD m.normals.length Vec3.zero =
      (Vec3.cross (r1.position - r0.position) (r2.position - r0.position)).getSafeNormal := by
  have hno : r0.normal.normalizeOpt = none := by
    unfold Vec3.normalizeOpt
    rw [if_neg (not_lt.mpr h)]
  simp only [emitTriangle]
  rw [List.getD_append_right _ _ _ _ (le_refl _)]
  simp [addNormal, hno]

/-- C2 (amended) witness: the fallback theorem applied to a concrete
degenerate candidate normal on a non-degenerate triangle, where the
emitted normal is the unit face normal. -/
theorem emitTriangle_normal_fallback_witness :
    Vec3.sizeSquared (Vec3.zero) ≤ smallNumber ∧
    (emitTriangle emptyMesh ⟨⟨0, 0, 0⟩, Vec3.zero⟩ ⟨⟨1, 0, 0⟩, Vec3.zero⟩
        ⟨⟨0, 1, 0⟩, Vec3.zero⟩).normals.getD emptyMesh.normals.length Vec3.zero =
      (Vec3.cross ((⟨1, 0, 0⟩ : Vec3) - ⟨0, 0, 0⟩) ((⟨0, 1, 0⟩ : Vec3) - ⟨0, 0, 0⟩)).getSafeNormal :=
  ⟨by norm_num [Vec3.sizeSquared, Vec3.zero, smallNumber],
   emitTriangle_normal_fallback emptyMesh ⟨⟨0, 0, 0⟩, Vec3.zero⟩ ⟨⟨1, 0, 0⟩, Vec3.zero⟩
     ⟨⟨0, 1, 0⟩, Vec3.zero⟩ (by norm_num [Vec3.sizeSquared, Vec3.zero, smallNumber])⟩

end DTerr
